import Mathlib

/-!
Shallow embedding of the neuvii_backend RBAC / scoping / provisioning core.

Entities and operations are translated from the repository source:
`users/models.py`, `clinic/models.py`, `clinic/admin.py`, `therapy/models.py`,
`therapy/admin.py`, `neuvii_backend/admin_mixins.py`.

Conventions of the embedding:
- Django model rows become Lean structures; the relational store is a
  `Store` of lists, foreign keys are numeric ids, nullable columns are
  `Option`.
- `request.user` becomes an `Actor`: `role` is the nullable `User.role`
  foreign key (carrying the role name, since the source compares
  `role.name` strings everywhere); the reverse one-to-one accessors
  `request.user.clinic_admin` / `.therapist_profile` / `.parent_profile`
  become `Option Nat` fields (Python's `hasattr` on a reverse one-to-one
  is false exactly when no related row exists).
- Python truthiness of a nullable char/email field (`if instance.email`)
  is `truthyStr`: false for NULL and for the empty string.
- Fallible code (`raise`, uncaught exceptions) returns `Except String`;
  a broad `except Exception` that logs and continues is modelled by
  keeping the store state reached before the failing statement.
- `secrets.choice` randomness is modelled by an arbitrary draw oracle
  `pick : Nat → Nat` (index stream into the alphabet).
-/

/-- Row of `users.models.User` (fields the RBAC core reads). -/
structure User where
  id : Nat
  email : String
  firstName : String
  lastName : String
  role : Option String
  isStaff : Bool
  isSuperuser : Bool
  isActive : Bool
  passwordResetRequired : Bool
  userPermissions : List String
  userGroups : List String
deriving DecidableEq, Repr

/-- Row of `clinic.models.Clinic` (fields the RBAC core reads). -/
structure Clinic where
  id : Nat
  name : String
  contactPersonName : Option String
  email : Option String
  clinicAdmin : Option Nat
  isActive : Bool
deriving DecidableEq, Repr

/-- Row of `therapy.models.TherapistProfile`. -/
structure TherapistProfile where
  id : Nat
  firstName : String
  lastName : String
  email : Option String
  isActive : Bool
  clinic : Option Nat
  user : Option Nat
deriving DecidableEq, Repr

/-- Row of `therapy.models.ParentProfile`. -/
structure ParentProfile where
  id : Nat
  firstName : String
  lastName : String
  parentEmail : Option String
  isActive : Bool
  user : Option Nat
deriving DecidableEq, Repr

/-- Row of `therapy.models.Child`. -/
structure Child where
  id : Nat
  name : String
  age : Nat
  clinic : Nat
  parent : Nat
  assignedTherapist : Option Nat
deriving DecidableEq, Repr

/-- Row of `therapy.models.Goal`. -/
structure Goal where
  id : Nat
  child : Nat
  title : String
  isLongTerm : Bool
deriving DecidableEq, Repr

/-- Row of `therapy.models.Task` (named `TherapyTask` here because `Task`
is taken by the Lean core library). -/
structure TherapyTask where
  id : Nat
  goal : Nat
  title : String
  difficulty : String
deriving DecidableEq, Repr

/-- Row of `therapy.models.Assignment`. -/
structure Assignment where
  id : Nat
  child : Nat
  therapist : Nat
  task : Nat
  completed : Bool
deriving DecidableEq, Repr

/-- The relational store: one table per model, plus the identity-store
side tables (`Role` rows are just their unique names, likewise `Group`
and the set of `Permission` codenames present), and fresh-id counters
standing for the autoincrement primary keys. -/
structure Store where
  users : List User
  clinics : List Clinic
  therapists : List TherapistProfile
  parents : List ParentProfile
  children : List Child
  goals : List Goal
  tasks : List TherapyTask
  assignments : List Assignment
  roles : List String
  groups : List String
  availablePerms : List String
  nextUserId : Nat
  nextClinicId : Nat
deriving DecidableEq, Repr

/-- The requesting principal (`request.user`) as the admin methods read
it.  `clinicAdminOf`, `therapistProfile`, `parentProfile` are the reverse
one-to-one accessors (`none` when `hasattr` is false).  `modelPerms` are
the codenames granted through `user_permissions`/groups, consulted only
by Django's default `ModelAdmin` permission fallbacks. -/
structure Actor where
  isAuthenticated : Bool
  isSuperuser : Bool
  isActive : Bool
  role : Option String
  clinicAdminOf : Option Nat
  therapistProfile : Option Nat
  parentProfile : Option Nat
  userId : Nat
  modelPerms : List String
deriving DecidableEq, Repr

/-- Python truthiness of a nullable string field: NULL and `""` are falsy. -/
def truthyStr : Option String → Bool
  | none => false
  | some s => s ≠ ""

/-- Truthiness of `request.user.role` combined with the `.name` lookup:
`request.user.role and request.user.role.name == r`. -/
def roleNameIs (u : Actor) (r : String) : Bool :=
  match u.role with
  | some n => n = r
  | none => false

/-- Membership test `request.user.role.name in rs` guarded by
`request.user.role` being set. -/
def roleNameIn (u : Actor) (rs : List String) : Bool :=
  match u.role with
  | some n => rs.contains n
  | none => false

def findClinic (s : Store) (cid : Nat) : Option Clinic :=
  s.clinics.find? (fun c => c.id == cid)

def findTherapist (s : Store) (tid : Nat) : Option TherapistProfile :=
  s.therapists.find? (fun t => t.id == tid)

def findParent (s : Store) (pid : Nat) : Option ParentProfile :=
  s.parents.find? (fun p => p.id == pid)

def findChild (s : Store) (cid : Nat) : Option Child :=
  s.children.find? (fun c => c.id == cid)

def findGoal (s : Store) (gid : Nat) : Option Goal :=
  s.goals.find? (fun g => g.id == gid)

/-- Join `assignment.child.clinic` (Django `child__clinic` lookup). -/
def assignmentChildClinic (s : Store) (a : Assignment) : Option Nat :=
  (findChild s a.child).map (fun c => c.clinic)

/-- Join `assignment.child.parent` (Django `child__parent` lookup). -/
def assignmentChildParent (s : Store) (a : Assignment) : Option Nat :=
  (findChild s a.child).map (fun c => c.parent)

/-- Join `goal.child.clinic`. -/
def goalChildClinic (s : Store) (g : Goal) : Option Nat :=
  (findChild s g.child).map (fun c => c.clinic)

/-- Join `goal.child.assigned_therapist`. -/
def goalChildTherapist (s : Store) (g : Goal) : Option Nat :=
  (findChild s g.child).bind (fun c => c.assignedTherapist)

/-- Join `goal.child.parent`. -/
def goalChildParent (s : Store) (g : Goal) : Option Nat :=
  (findChild s g.child).map (fun c => c.parent)

/-- Join `task.goal.child.clinic` (Django `goal__child__clinic`). -/
def taskGoalChildClinic (s : Store) (t : TherapyTask) : Option Nat :=
  (findGoal s t.goal).bind (fun g => goalChildClinic s g)

/-- Join `task.goal.child.assigned_therapist`. -/
def taskGoalChildTherapist (s : Store) (t : TherapyTask) : Option Nat :=
  (findGoal s t.goal).bind (fun g => goalChildTherapist s g)

/-- Django `User.has_perm` as the default `ModelAdmin` checks consult it:
true for an active superuser, else membership of the codename in the
actor's granted permissions. -/
def djangoHasPerm (u : Actor) (codename : String) : Bool :=
  u.isActive && (u.isSuperuser || u.modelPerms.contains codename)

/-- Django's default `ModelAdmin.has_view_permission`: view or change
permission on the model. -/
def defaultHasViewPermission (u : Actor) (viewCodename changeCodename : String) : Bool :=
  djangoHasPerm u changeCodename || djangoHasPerm u viewCodename

namespace ClinicAdmin

/-- `clinic/admin.py` `ClinicAdmin.has_module_permission` (lines 119-127). -/
def has_module_permission (u : Actor) : Bool :=
  if ¬ u.isAuthenticated then false
  else if u.isSuperuser then true
  else match u.role with
    | some n => ["Neuvii Admin", "Clinic Admin"].contains n
    | none => false

/-- `clinic/admin.py` `ClinicAdmin.has_view_permission` (lines 129-146). -/
def has_view_permission (u : Actor) (obj : Option Clinic) : Bool :=
  if ¬ has_module_permission u then false
  else if roleNameIs u "Neuvii Admin" then true
  else if roleNameIs u "Clinic Admin" then
    match obj with
    | none => true
    | some c =>
      match u.clinicAdminOf with
      | some cid => c.id == cid
      | none => false
  else false

/-- `clinic/admin.py` `ClinicAdmin.has_add_permission` (lines 148-155). -/
def has_add_permission (u : Actor) : Bool :=
  if ¬ u.isAuthenticated then false
  else if u.isSuperuser then true
  else roleNameIs u "Neuvii Admin"

/-- `clinic/admin.py` `ClinicAdmin.has_change_permission` (lines 157-173). -/
def has_change_permission (u : Actor) (obj : Option Clinic) : Bool :=
  if ¬ has_module_permission u then false
  else if roleNameIs u "Neuvii Admin" then true
  else if roleNameIs u "Clinic Admin" then
    match obj with
    | none => true
    | some c =>
      match u.clinicAdminOf with
      | some cid => c.id == cid
      | none => false
  else false

/-- `clinic/admin.py` `ClinicAdmin.has_delete_permission` (lines 175-180). -/
def has_delete_permission (u : Actor) (_obj : Option Clinic) : Bool :=
  if ¬ has_module_permission u then false
  else roleNameIs u "Neuvii Admin"

/-- `clinic/admin.py` `ClinicAdmin.get_queryset` (lines 182-197). -/
def get_queryset (u : Actor) (s : Store) : List Clinic :=
  if ¬ u.isAuthenticated ∨ u.role = none then []
  else if u.isSuperuser ∨ u.role = some "Neuvii Admin" then s.clinics
  else if u.role = some "Clinic Admin" then
    match u.clinicAdminOf with
    | some cid => s.clinics.filter (fun c => c.id == cid)
    | none => []
  else []

end ClinicAdmin

namespace TherapistProfileAdmin

/-- `therapy/admin.py` `TherapistProfileAdmin.has_module_permission` (lines 72-80). -/
def has_module_permission (u : Actor) : Bool :=
  if ¬ u.isAuthenticated then false
  else if u.isSuperuser then true
  else match u.role with
    | some n => ["Neuvii Admin", "Clinic Admin", "Therapist"].contains n
    | none => false

/-- `therapy/admin.py` `TherapistProfileAdmin.has_view_permission` (lines 82-89);
the fallthrough is Django's default model-permission check. -/
def has_view_permission (u : Actor) (_obj : Option TherapistProfile) : Bool :=
  if ¬ has_module_permission u then false
  else if roleNameIs u "Neuvii Admin" then true
  else defaultHasViewPermission u "therapy.view_therapistprofile" "therapy.change_therapistprofile"

/-- `therapy/admin.py` `TherapistProfileAdmin.has_add_permission` (lines 91-99). -/
def has_add_permission (u : Actor) : Bool :=
  if ¬ has_module_permission u then false
  else match u.role with
    | some n => if n = "Neuvii Admin" then true else ["Clinic Admin"].contains n
    | none => false

/-- `therapy/admin.py` `TherapistProfileAdmin.has_change_permission` (lines 101-110). -/
def has_change_permission (u : Actor) (_obj : Option TherapistProfile) : Bool :=
  if ¬ has_module_permission u then false
  else if roleNameIs u "Neuvii Admin" then true
  else match u.role with
    | some n => ["Clinic Admin"].contains n
    | none => false

/-- `therapy/admin.py` `TherapistProfileAdmin.has_delete_permission` (lines 112-118). -/
def has_delete_permission (u : Actor) (_obj : Option TherapistProfile) : Bool :=
  if ¬ has_module_permission u then false
  else match u.role with
    | some n => n = "Neuvii Admin"
    | none => false

/-- `therapy/admin.py` `TherapistProfileAdmin.get_queryset` (lines 125-141). -/
def get_queryset (u : Actor) (s : Store) : List TherapistProfile :=
  if ¬ u.isAuthenticated then []
  else match u.role with
  | none => []
  | some r =>
    if r = "Neuvii Admin" then s.therapists
    else if r = "Clinic Admin" then
      match u.clinicAdminOf with
      | some cid => s.therapists.filter (fun t => t.clinic == some cid)
      | none => []
    else if r = "Therapist" then
      match u.therapistProfile with
      | some tid => s.therapists.filter (fun t => t.id == tid)
      | none => []
    else []

end TherapistProfileAdmin

namespace ParentProfileAdmin

/-- `therapy/admin.py` `ParentProfileAdmin.has_module_permission` (lines 243-251). -/
def has_module_permission (u : Actor) : Bool :=
  if ¬ u.isAuthenticated then false
  else if u.isSuperuser then true
  else match u.role with
    | some n => ["Neuvii Admin", "Clinic Admin", "Therapist", "Parent"].contains n
    | none => false

/-- `therapy/admin.py` `ParentProfileAdmin.has_view_permission` (lines 253-259). -/
def has_view_permission (u : Actor) (_obj : Option ParentProfile) : Bool :=
  if ¬ has_module_permission u then false
  else if roleNameIs u "Neuvii Admin" then true
  else defaultHasViewPermission u "therapy.view_parentprofile" "therapy.change_parentprofile"

/-- `therapy/admin.py` `ParentProfileAdmin.has_add_permission` (lines 261-269). -/
def has_add_permission (u : Actor) : Bool :=
  if ¬ has_module_permission u then false
  else match u.role with
    | some n => if n = "Neuvii Admin" then true else ["Clinic Admin"].contains n
    | none => false

/-- `therapy/admin.py` `ParentProfileAdmin.has_change_permission` (lines 271-280). -/
def has_change_permission (u : Actor) (_obj : Option ParentProfile) : Bool :=
  if ¬ has_module_permission u then false
  else if roleNameIs u "Neuvii Admin" then true
  else match u.role with
    | some n => ["Clinic Admin"].contains n
    | none => false

/-- `therapy/admin.py` `ParentProfileAdmin.has_delete_permission` (lines 282-288). -/
def has_delete_permission (u : Actor) (_obj : Option ParentProfile) : Bool :=
  if ¬ has_module_permission u then false
  else match u.role with
    | some n => n = "Neuvii Admin"
    | none => false

/-- `therapy/admin.py` `ParentProfileAdmin.get_queryset` (lines 290-312). -/
def get_queryset (u : Actor) (s : Store) : List ParentProfile :=
  if ¬ u.isAuthenticated then []
  else match u.role with
  | none => []
  | some r =>
    if r = "Neuvii Admin" then s.parents
    else if r = "Clinic Admin" then
      match u.clinicAdminOf with
      | some cid =>
        s.parents.filter (fun p => s.children.any (fun c => c.parent == p.id && c.clinic == cid))
      | none => []
    else if r = "Therapist" then
      match u.therapistProfile with
      | some tid =>
        s.parents.filter (fun p =>
          s.children.any (fun c => c.parent == p.id && c.assignedTherapist == some tid))
      | none => []
    else if r = "Parent" then
      match u.parentProfile with
      | some pid => s.parents.filter (fun p => p.id == pid)
      | none => []
    else []

end ParentProfileAdmin

namespace ChildAdmin

/-- `therapy/admin.py` `ChildAdmin.has_module_permission` (lines 367-376). -/
def has_module_permission (u : Actor) : Bool :=
  if ¬ u.isAuthenticated then false
  else if u.isSuperuser then true
  else match u.role with
    | some n => n = "Neuvii Admin"
    | none => false

/-- `therapy/admin.py` `ChildAdmin.has_view_permission` (lines 378-381). -/
def has_view_permission (u : Actor) (_obj : Option Child) : Bool :=
  if ¬ has_module_permission u then false else true

/-- `therapy/admin.py` `ChildAdmin.has_add_permission` (lines 383-386). -/
def has_add_permission (u : Actor) : Bool :=
  if ¬ has_module_permission u then false else true

/-- `therapy/admin.py` `ChildAdmin.has_change_permission` (lines 388-391). -/
def has_change_permission (u : Actor) (_obj : Option Child) : Bool :=
  if ¬ has_module_permission u then false else true

/-- `therapy/admin.py` `ChildAdmin.has_delete_permission` (lines 393-396). -/
def has_delete_permission (u : Actor) (_obj : Option Child) : Bool :=
  if ¬ has_module_permission u then false else true

/-- `therapy/admin.py` `ChildAdmin.get_queryset` (lines 398-406). -/
def get_queryset (u : Actor) (s : Store) : List Child :=
  if ¬ u.isAuthenticated then []
  else match u.role with
  | none => []
  | some r => if r = "Neuvii Admin" then s.children else []

end ChildAdmin

/-- Instance ownership test `obj.child.parent.user == request.user` from
`AssignmentAdmin.has_change_permission`; a dangling foreign key (never
produced by the store) reads as no ownership. -/
def ownsAssignmentAsParent (u : Actor) (s : Store) (a : Assignment) : Bool :=
  match findChild s a.child with
  | some ch =>
    match findParent s ch.parent with
    | some p => p.user == some u.userId
    | none => false
  | none => false

namespace AssignmentAdmin

/-- `therapy/admin.py` `AssignmentAdmin.has_module_permission` (lines 426-434). -/
def has_module_permission (u : Actor) : Bool :=
  if ¬ u.isAuthenticated then false
  else if u.isSuperuser then true
  else match u.role with
    | some n => ["Neuvii Admin", "Clinic Admin", "Therapist", "Parent"].contains n
    | none => false

/-- `therapy/admin.py` `AssignmentAdmin.has_view_permission` (lines 436-439). -/
def has_view_permission (u : Actor) (_obj : Option Assignment) : Bool :=
  if ¬ has_module_permission u then false else true

/-- `therapy/admin.py` `AssignmentAdmin.has_add_permission` (lines 441-448). -/
def has_add_permission (u : Actor) : Bool :=
  if ¬ has_module_permission u then false
  else match u.role with
    | some n => if n = "Neuvii Admin" then true else ["Clinic Admin", "Therapist"].contains n
    | none => false

/-- `therapy/admin.py` `AssignmentAdmin.has_change_permission` (lines 450-459);
the Parent branch is `obj and obj.child.parent.user == request.user`. -/
def has_change_permission (u : Actor) (s : Store) (obj : Option Assignment) : Bool :=
  if ¬ has_module_permission u then false
  else match u.role with
    | some n =>
      if n = "Neuvii Admin" then true
      else if n = "Parent" then
        match obj with
        | some a => ownsAssignmentAsParent u s a
        | none => false
      else ["Clinic Admin", "Therapist"].contains n
    | none => false

/-- `therapy/admin.py` `AssignmentAdmin.has_delete_permission` (lines 461-466). -/
def has_delete_permission (u : Actor) (_obj : Option Assignment) : Bool :=
  if ¬ has_module_permission u then false
  else match u.role with
    | some n => n = "Neuvii Admin"
    | none => false

/-- `therapy/admin.py` `AssignmentAdmin.get_queryset` (lines 468-488). -/
def get_queryset (u : Actor) (s : Store) : List Assignment :=
  if ¬ u.isAuthenticated then []
  else match u.role with
  | none => []
  | some r =>
    if r = "Neuvii Admin" then s.assignments
    else if r = "Clinic Admin" then
      match u.clinicAdminOf with
      | some cid => s.assignments.filter (fun a => assignmentChildClinic s a == some cid)
      | none => []
    else if r = "Therapist" then
      match u.therapistProfile with
      | some tid => s.assignments.filter (fun a => a.therapist == tid)
      | none => []
    else if r = "Parent" then
      match u.parentProfile with
      | some pid => s.assignments.filter (fun a => assignmentChildParent s a == some pid)
      | none => []
    else []

end AssignmentAdmin

namespace GoalAdmin

/-- `therapy/admin.py` `GoalAdmin.has_module_permission` (lines 497-505). -/
def has_module_permission (u : Actor) : Bool :=
  if ¬ u.isAuthenticated then false
  else if u.isSuperuser then true
  else match u.role with
    | some n => ["Neuvii Admin", "Clinic Admin", "Therapist", "Parent"].contains n
    | none => false

/-- `therapy/admin.py` `GoalAdmin.has_view_permission` (lines 507-510). -/
def has_view_permission (u : Actor) (_obj : Option Goal) : Bool :=
  if ¬ has_module_permission u then false else true

/-- `therapy/admin.py` `GoalAdmin.has_add_permission` (lines 512-519). -/
def has_add_permission (u : Actor) : Bool :=
  if ¬ has_module_permission u then false
  else match u.role with
    | some n => if n = "Neuvii Admin" then true else ["Clinic Admin", "Therapist"].contains n
    | none => false

/-- `therapy/admin.py` `GoalAdmin.has_change_permission` (lines 521-530). -/
def has_change_permission (u : Actor) (_obj : Option Goal) : Bool :=
  if ¬ has_module_permission u then false
  else match u.role with
    | some n =>
      if n = "Neuvii Admin" then true
      else if n = "Parent" then false
      else ["Clinic Admin", "Therapist"].contains n
    | none => false

/-- `therapy/admin.py` `GoalAdmin.has_delete_permission` (lines 532-537). -/
def has_delete_permission (u : Actor) (_obj : Option Goal) : Bool :=
  if ¬ has_module_permission u then false
  else match u.role with
    | some n => n = "Neuvii Admin"
    | none => false

/-- `therapy/admin.py` `GoalAdmin.get_queryset` (lines 539-559). -/
def get_queryset (u : Actor) (s : Store) : List Goal :=
  if ¬ u.isAuthenticated then []
  else match u.role with
  | none => []
  | some r =>
    if r = "Neuvii Admin" then s.goals
    else if r = "Clinic Admin" then
      match u.clinicAdminOf with
      | some cid => s.goals.filter (fun g => goalChildClinic s g == some cid)
      | none => []
    else if r = "Therapist" then
      match u.therapistProfile with
      | some tid => s.goals.filter (fun g => goalChildTherapist s g == some tid)
      | none => []
    else if r = "Parent" then
      match u.parentProfile with
      | some pid => s.goals.filter (fun g => goalChildParent s g == some pid)
      | none => []
    else []

end GoalAdmin

namespace TaskAdmin

/-- `therapy/admin.py` `TaskAdmin.has_module_permission` (lines 568-576):
the Parent role is absent from the allowed list. -/
def has_module_permission (u : Actor) : Bool :=
  if ¬ u.isAuthenticated then false
  else if u.isSuperuser then true
  else match u.role with
    | some n => ["Neuvii Admin", "Clinic Admin", "Therapist"].contains n
    | none => false

/-- `therapy/admin.py` `TaskAdmin.has_view_permission` (lines 578-581). -/
def has_view_permission (u : Actor) (_obj : Option TherapyTask) : Bool :=
  if ¬ has_module_permission u then false else true

/-- `therapy/admin.py` `TaskAdmin.has_add_permission` (lines 583-590). -/
def has_add_permission (u : Actor) : Bool :=
  if ¬ has_module_permission u then false
  else match u.role with
    | some n => if n = "Neuvii Admin" then true else ["Clinic Admin", "Therapist"].contains n
    | none => false

/-- `therapy/admin.py` `TaskAdmin.has_change_permission` (lines 592-599). -/
def has_change_permission (u : Actor) (_obj : Option TherapyTask) : Bool :=
  if ¬ has_module_permission u then false
  else match u.role with
    | some n => if n = "Neuvii Admin" then true else ["Clinic Admin", "Therapist"].contains n
    | none => false

/-- `therapy/admin.py` `TaskAdmin.has_delete_permission` (lines 601-606). -/
def has_delete_permission (u : Actor) (_obj : Option TherapyTask) : Bool :=
  if ¬ has_module_permission u then false
  else match u.role with
    | some n => n = "Neuvii Admin"
    | none => false

/-- `therapy/admin.py` `TaskAdmin.get_queryset` (lines 608-624): no Parent
branch, so Parent falls through to the empty queryset. -/
def get_queryset (u : Actor) (s : Store) : List TherapyTask :=
  if ¬ u.isAuthenticated then []
  else match u.role with
  | none => []
  | some r =>
    if r = "Neuvii Admin" then s.tasks
    else if r = "Clinic Admin" then
      match u.clinicAdminOf with
      | some cid => s.tasks.filter (fun t => taskGoalChildClinic s t == some cid)
      | none => []
    else if r = "Therapist" then
      match u.therapistProfile with
      | some tid => s.tasks.filter (fun t => taskGoalChildTherapist s t == some tid)
      | none => []
    else []

end TaskAdmin

namespace TherapistDataMixin

/-- `neuvii_backend/admin_mixins.py` `TherapistDataMixin.get_queryset`
(lines 230-268), instantiated at the `Child` model (which has the
`clinic`, `assigned_therapist` and `parent` attributes the mixin's
`hasattr` dispatch probes, in that order). -/
def get_queryset_child (u : Actor) (s : Store) : List Child :=
  if ¬ u.isAuthenticated then []
  else if u.isSuperuser then s.children
  else match u.role with
  | none => []
  | some r =>
    if r = "Neuvii Admin" then s.children
    else if r = "Clinic Admin" then
      match u.clinicAdminOf with
      | some cid => s.children.filter (fun c => c.clinic == cid)
      | none => []
    else if r = "Therapist" then
      match u.therapistProfile with
      | some tid => s.children.filter (fun c => c.assignedTherapist == some tid)
      | none => []
    else if r = "Parent" then
      match u.parentProfile with
      | some pid => s.children.filter (fun c => c.parent == pid)
      | none => []
    else []

end TherapistDataMixin

/-- Accumulating word splitter over the character list (structural, so
the kernel can evaluate it). -/
def splitWordsChars : List Char → List Char → List String
  | [], cur => if cur.isEmpty then [] else [String.mk cur.reverse]
  | c :: cs, cur =>
    if c.isWhitespace then
      (if cur.isEmpty then splitWordsChars cs []
       else String.mk cur.reverse :: splitWordsChars cs [])
    else splitWordsChars cs (c :: cur)

/-- Python `name.strip().split()`: split on whitespace runs, dropping
empty tokens (leading/trailing whitespace contributes nothing, so the
`strip()` is absorbed). -/
def splitWords (s : String) : List String := splitWordsChars s.toList []

/-- Python `str.strip()` over the character list. -/
def trimChars (cs : List Char) : List Char :=
  ((cs.dropWhile Char.isWhitespace).reverse.dropWhile Char.isWhitespace).reverse

/-- Helper for `BaseUserManager.normalize_email`: Python
`rsplit("@", 1)`, splitting at the last `@` when one exists. -/
def splitLastAt : List Char → Option (List Char × List Char)
  | [] => none
  | c :: cs =>
    match splitLastAt cs with
    | some (a, b) => some (c :: a, b)
    | none => if c = '@' then some ([], cs) else none

/-- Django `BaseUserManager.normalize_email`: strip, rsplit at the last
`@`, lowercase the domain part; on a `ValueError` (no `@`) the original
email is returned unchanged. -/
def normalize_email (email : String) : String :=
  match splitLastAt (trimChars email.toList) with
  | some (name, dom) => String.mk name ++ "@" ++ String.mk (dom.map Char.toLower)
  | none => email

/-- Role-name to group-name table of the `create_roles_and_groups`
post-save receiver in `users/models.py` (lines 84-97). -/
def roleToGroup (r : String) : Option String :=
  if r = "Neuvii Admin" then some "neuvii_admin"
  else if r = "Clinic Admin" then some "clinic_admin"
  else if r = "Therapist" then some "therapist"
  else if r = "Parent" then some "parent"
  else none

/-- `Group.objects.get_or_create(name=g)`. -/
def ensureGroup (s : Store) (g : String) : Store :=
  if s.groups.contains g then s else { s with groups := s.groups ++ [g] }

/-- `Role.objects.get_or_create(name=r)` together with the
`create_roles_and_groups` post-save receiver that fires only when the
row is newly created. -/
def addRole (s : Store) (r : String) : Store :=
  if s.roles.contains r then s
  else
    let s1 := { s with roles := s.roles ++ [r] }
    match roleToGroup r with
    | some g => ensureGroup s1 g
    | none => s1

/-- The `create_user_groups` post-save receiver on `User`
(`users/models.py` lines 74-81): every user creation ensures the four
default groups exist. -/
def ensureDefaultGroups (s : Store) : Store :=
  ensureGroup (ensureGroup (ensureGroup (ensureGroup s "neuvii_admin")
    "clinic_admin") "therapist") "parent"

/-- Field values handed to a user-creating call. -/
structure UserFields where
  firstName : String
  lastName : String
  role : Option String
  isStaff : Bool
  isActive : Bool
  passwordResetRequired : Bool
deriving DecidableEq, Repr

/-- The `User` row assembled by a user-creating call (permission grants
and group memberships start empty; `is_superuser` defaults to false). -/
def mkUser (uid : Nat) (email : String) (f : UserFields) : User :=
  { id := uid, email := email, firstName := f.firstName,
    lastName := f.lastName, role := f.role, isStaff := f.isStaff,
    isSuperuser := false, isActive := f.isActive,
    passwordResetRequired := f.passwordResetRequired,
    userPermissions := [], userGroups := [] }

/-- Persisting a new `User` row: the store's unique constraint on
`email` raises `IntegrityError` on a duplicate; on success the row is
appended and the `create_user_groups` post-save receiver runs. -/
def insertUser (s : Store) (email : String) (f : UserFields) : Except String (Store × Nat) :=
  if s.users.any (fun u => u.email == email) then
    .error "IntegrityError: duplicate email"
  else
    .ok (ensureDefaultGroups
      { s with users := s.users ++ [mkUser s.nextUserId email f],
               nextUserId := s.nextUserId + 1 }, s.nextUserId)

namespace CustomUserManager

/-- `users/models.py` `CustomUserManager.create_user` (lines 18-25):
reject a falsy email with `ValueError`, else normalize and save. -/
def create_user (s : Store) (email : String) (f : UserFields) : Except String (Store × Nat) :=
  if email = "" then .error "The Email field must be set"
  else insertUser s (normalize_email email) f

end CustomUserManager

/-- `User.objects.create(...)` (the stock manager `create`, used by the
therapist and parent signal handlers): plain model save, no empty-email
check and no normalization. -/
def objectsCreateUser (s : Store) (email : String) (f : UserFields) : Except String (Store × Nat) :=
  insertUser s email f

/-- `user.groups.add(group)` after the group exists. -/
def addUserToGroup (s : Store) (uid : Nat) (g : String) : Store :=
  { s with users := s.users.map (fun u =>
      if u.id == uid then
        { u with userGroups := if u.userGroups.contains g then u.userGroups else u.userGroups ++ [g] }
      else u) }

/-- `users/models.py` `User.assign_to_group` (lines 61-68):
`get_or_create` the group, add the user, save. -/
def assign_to_group (s : Store) (uid : Nat) (g : String) : Store :=
  addUserToGroup (ensureGroup s g) uid g

/-- Permission-granting loop shared by all provisioners: for each
codename, `Permission.objects.get`; a missing codename is reported and
skipped (non-fatal), a found one is added to `user_permissions`. -/
def grantPerms (s : Store) (uid : Nat) (codenames : List String) : Store :=
  { s with users := s.users.map (fun u =>
      if u.id == uid then
        { u with userPermissions :=
            u.userPermissions ++ codenames.filter (fun c => s.availablePerms.contains c) }
      else u) }

/-- `instance.clinic_admin = user; instance.save(update_fields=[...])`
(the nested post-save fires with `created=False`, so the signal guard
makes it a no-op; the signal handlers below already require `created`). -/
def setClinicAdmin (s : Store) (cid uid : Nat) : Store :=
  { s with clinics := s.clinics.map (fun c =>
      if c.id == cid then { c with clinicAdmin := some uid } else c) }

/-- `instance.user = user; instance.save(update_fields=['user'])` on a
therapist profile. -/
def setTherapistUser (s : Store) (tid uid : Nat) : Store :=
  { s with therapists := s.therapists.map (fun t =>
      if t.id == tid then { t with user := some uid } else t) }

/-- `instance.user = user; instance.save(update_fields=['user'])` on a
parent profile. -/
def setParentUser (s : Store) (pid uid : Nat) : Store :=
  { s with parents := s.parents.map (fun p =>
      if p.id == pid then { p with user := some uid } else p) }

/-- Permission bundle of the clinic-admin signal handler
(`clinic/models.py` lines 148-153). -/
def signalClinicAdminPerms : List String :=
  ["add_therapistprofile", "change_therapistprofile", "view_therapistprofile",
   "add_parentprofile", "change_parentprofile", "view_parentprofile",
   "add_child", "change_child", "view_child",
   "view_clinic"]

/-- Permission bundle of `ClinicAdmin.save_model`
(`clinic/admin.py` lines 234-239). -/
def adminClinicAdminPerms : List String :=
  ["add_therapistprofile", "change_therapistprofile", "view_therapistprofile",
   "add_parentprofile", "change_parentprofile", "view_parentprofile",
   "add_child", "change_child", "view_child",
   "view_clinic", "change_clinic"]

/-- Permission bundle of the therapist signal handler
(`therapy/models.py` lines 156-161). -/
def therapistPerms : List String :=
  ["add_assignment", "change_assignment", "view_assignment",
   "add_goal", "change_goal", "view_goal",
   "add_task", "change_task", "view_task",
   "view_child", "change_child"]

/-- `clinic/models.py` `create_clinic_admin_user` post-save receiver
(lines 111-170).  The body runs under a broad `except Exception` that
logs and continues: a failure inside `create_user` leaves the store
state reached before it (the role row already written). -/
def create_clinic_admin_user (s : Store) (cid : Nat) (created : Bool) : Store :=
  match findClinic s cid with
  | none => s
  | some c =>
    if created && truthyStr c.email && truthyStr c.contactPersonName
        && c.clinicAdmin == none then
      let s1 := addRole s "Clinic Admin"
      let parts := splitWords (c.contactPersonName.getD "")
      let firstName := parts.headD "Admin"
      let lastName := if parts.length > 1 then " ".intercalate parts.tail else ""
      match CustomUserManager.create_user s1 (c.email.getD "")
          { firstName := firstName, lastName := lastName, role := some "Clinic Admin",
            isStaff := true, isActive := c.isActive, passwordResetRequired := true } with
      | .error _ => s1
      | .ok (s2, uid) =>
        let s3 := addUserToGroup (ensureGroup s2 "Clinic Admin") uid "Clinic Admin"
        let s4 := grantPerms s3 uid signalClinicAdminPerms
        setClinicAdmin s4 cid uid
    else s

/-- `therapy/models.py` `create_therapist_user` post-save receiver
(lines 128-178); uses `User.objects.create`, not `create_user`. -/
def create_therapist_user (s : Store) (tid : Nat) (created : Bool) : Store :=
  match findTherapist s tid with
  | none => s
  | some t =>
    if created && truthyStr t.email && t.user == none then
      let s1 := addRole s "Therapist"
      match objectsCreateUser s1 (t.email.getD "")
          { firstName := t.firstName, lastName := t.lastName, role := some "Therapist",
            isStaff := true, isActive := t.isActive, passwordResetRequired := true } with
      | .error _ => s1
      | .ok (s2, uid) =>
        let s3 := addUserToGroup (ensureGroup s2 "therapist") uid "therapist"
        let s4 := grantPerms s3 uid therapistPerms
        setTherapistUser s4 tid uid
    else s

/-- `therapy/models.py` `create_parent_user` post-save receiver
(lines 184-218); parents are created without staff access and joined to
the `parent` group through `assign_to_group`. -/
def create_parent_user (s : Store) (pid : Nat) (created : Bool) : Store :=
  match findParent s pid with
  | none => s
  | some p =>
    if created && truthyStr p.parentEmail && p.user == none then
      let s1 := addRole s "Parent"
      match objectsCreateUser s1 (p.parentEmail.getD "")
          { firstName := p.firstName, lastName := p.lastName, role := some "Parent",
            isStaff := false, isActive := p.isActive, passwordResetRequired := true } with
      | .error _ => s1
      | .ok (s2, uid) =>
        let s3 := assign_to_group s2 uid "parent"
        setParentUser s3 pid uid
    else s

/-- Form data submitted for a new clinic (the fields the creation flow
reads; `clinic_admin` is a hidden input, empty for a new clinic). -/
structure ClinicInput where
  name : String
  contactPersonName : Option String
  email : Option String
  isActive : Bool
deriving DecidableEq, Repr

namespace ClinicForm

/-- `clinic/admin.py` `ClinicForm.clean` (lines 51-66) on a new instance
(`self.instance.pk` is unset): requires email and contact person name,
and rejects an email already carried by any `User`. -/
def clean (s : Store) (email contactPersonName : Option String) : Except String Unit :=
  if ¬ truthyStr email then
    .error "Email is required to create clinic admin account."
  else if ¬ truthyStr contactPersonName then
    .error "Contact person name is required to create clinic admin account."
  else if s.users.any (fun u => some u.email == email) then
    .error ("Email " ++ email.getD "" ++ " is already registered.")
  else .ok ()

end ClinicForm

/-- Persisting a new `Clinic` row (`super().save_model` /
`Clinic.objects.create`): append with a fresh primary key. -/
def insertClinic (s : Store) (inp : ClinicInput) (clinicAdmin : Option Nat) : Store × Nat :=
  let cid := s.nextClinicId
  let c : Clinic :=
    { id := cid, name := inp.name,
      contactPersonName := inp.contactPersonName, email := inp.email,
      clinicAdmin := clinicAdmin, isActive := inp.isActive }
  ({ s with clinics := s.clinics ++ [c], nextClinicId := cid + 1 }, cid)

namespace ClinicAdmin

/-- `clinic/admin.py` `ClinicAdmin.save_model` (lines 199-273) for a new
object (`change` false).  With both contact fields present it creates
the admin user first (note `is_active=True` is hardcoded there), links
`obj.clinic_admin`, then persists the clinic; any exception inside the
block is re-raised, and the admin change-form view runs in a
transaction, so an error leaves no partial state.  Without the contact
fields it just persists the clinic. -/
def save_model_create (s : Store) (inp : ClinicInput) : Except String (Store × Nat) :=
  if truthyStr inp.email && truthyStr inp.contactPersonName then
    let s1 := addRole s "Clinic Admin"
    match splitWords (inp.contactPersonName.getD "") with
    | [] => .error "IndexError: list index out of range"
    | firstName :: rest =>
      let lastName := if rest.length > 0 then " ".intercalate rest else ""
      match CustomUserManager.create_user s1 (inp.email.getD "")
          { firstName := firstName, lastName := lastName, role := some "Clinic Admin",
            isStaff := true, isActive := true, passwordResetRequired := true } with
      | .error e => .error e
      | .ok (s2, uid) =>
        let s3 := addUserToGroup (ensureGroup s2 "Clinic Admin") uid "Clinic Admin"
        let s4 := grantPerms s3 uid adminClinicAdminPerms
        .ok (insertClinic s4 inp (some uid))
  else
    .ok (insertClinic s inp none)

end ClinicAdmin

/-- Full admin creation path for a clinic: form validation, then
`save_model`, then the `post_save` receiver fired by the insert with
`created=True`. -/
def adminCreateClinic (s : Store) (inp : ClinicInput) : Except String Store :=
  match ClinicForm.clean s inp.email inp.contactPersonName with
  | .error e => .error e
  | .ok _ =>
    match ClinicAdmin.save_model_create s inp with
    | .error e => .error e
    | .ok (s1, cid) => .ok (create_clinic_admin_user s1 cid true)

/-- Deleting a `ParentProfile`, following the declared `on_delete`
policies: `Child.parent` is CASCADE, `Goal.child` is CASCADE,
`Task.goal` is CASCADE, `Assignment.child` and `Assignment.task` are
CASCADE.  `ParentProfile.user` is a CASCADE *from the User side*
(deleting the User deletes the profile), so deleting the profile leaves
the user table untouched. -/
def deleteParentProfile (s : Store) (pid : Nat) : Store :=
  let deadChildren := (s.children.filter (fun c => c.parent == pid)).map (fun c => c.id)
  let deadGoals := (s.goals.filter (fun g => deadChildren.contains g.child)).map (fun g => g.id)
  let deadTasks := (s.tasks.filter (fun t => deadGoals.contains t.goal)).map (fun t => t.id)
  { s with
    parents := s.parents.filter (fun p => p.id != pid),
    children := s.children.filter (fun c => c.parent != pid),
    goals := s.goals.filter (fun g => !(deadChildren.contains g.child)),
    tasks := s.tasks.filter (fun t => !(deadGoals.contains t.goal)),
    assignments := s.assignments.filter (fun a =>
      !(deadChildren.contains a.child) && !(deadTasks.contains a.task)) }

/-- Python `string.ascii_lowercase`. -/
def asciiLowercase : List Char := "abcdefghijklmnopqrstuvwxyz".toList

/-- Python `string.ascii_uppercase`. -/
def asciiUppercase : List Char := "ABCDEFGHIJKLMNOPQRSTUVWXYZ".toList

/-- Python `string.ascii_letters`. -/
def asciiLetters : List Char := asciiLowercase ++ asciiUppercase

/-- Python `string.digits`. -/
def digitChars : List Char := "0123456789".toList

/-- Python `string.punctuation`: the 32 ASCII characters in the ranges
33-47, 58-64, 91-96 and 123-126. -/
def punctuationChars : List Char :=
  ((List.range 128).map Char.ofNat).filter (fun c =>
    decide ((33 ≤ c.toNat ∧ c.toNat ≤ 47) ∨ (58 ≤ c.toNat ∧ c.toNat ≤ 64) ∨
      (91 ≤ c.toNat ∧ c.toNat ≤ 96) ∨ (123 ≤ c.toNat ∧ c.toNat ≤ 126)))

/-- Alphabet `string.ascii_letters + string.digits + string.punctuation`
used by both clinic-side generators. -/
def fullAlphabet : List Char := asciiLetters ++ digitChars ++ punctuationChars

/-- Alphabet of `User.generate_temp_password`:
`string.ascii_letters + string.digits + "!@#$%^&*"`. -/
def userModelAlphabet : List Char := asciiLetters ++ digitChars ++ "!@#$%^&*".toList

/-- A run of `length` draws `secrets.choice(alphabet)` starting at
offset `off` of the draw oracle. -/
def drawChars (alphabet : List Char) (pick : Nat → Nat) (off len : Nat) : List Char :=
  (List.range len).map (fun i => alphabet.getD (pick (off + i) % alphabet.length) 'a')

namespace ClinicModels

/-- `clinic/models.py` `generate_temp_password` (lines 103-108): `length`
draws from letters+digits+punctuation, no composition constraint
(callers use the default `length=12`). -/
def generate_temp_password (pick : Nat → Nat) (length : Nat) : List Char :=
  drawChars fullAlphabet pick 0 length

end ClinicModels

namespace UserModel

/-- `users/models.py` `User.generate_temp_password` (lines 51-56): 12
draws from the restricted-symbol alphabet, no composition constraint. -/
def generate_temp_password (pick : Nat → Nat) : List Char :=
  drawChars userModelAlphabet pick 0 12

end UserModel

/-- Composition test of the `while True` loop in `clinic/admin.py`
`generate_temp_password`: at least one lowercase, one uppercase, one
digit and one punctuation character. -/
def validDraft (cs : List Char) : Bool :=
  cs.any (fun c => c.isLower) && cs.any (fun c => c.isUpper) &&
    cs.any (fun c => c.isDigit) && cs.any (fun c => punctuationChars.contains c)

/-- One candidate password of the rejection-sampling loop: draws
`length` characters, the `k`-th retry consuming the next stretch of the
oracle. -/
def adminDraft (pick : Nat → Nat) (length k : Nat) : List Char :=
  drawChars fullAlphabet pick (length * k) length

namespace ClinicAdmin

/-- `clinic/admin.py` module-level `generate_temp_password` (lines
19-28): rejection sampling until the draft satisfies `validDraft`; the
loop terminates exactly when some retry index yields a valid draft,
which the hypothesis supplies, and the first such draft is returned. -/
def generate_temp_password (pick : Nat → Nat) (length : Nat)
    (h : ∃ k, validDraft (adminDraft pick length k) = true) : List Char :=
  adminDraft pick length (Nat.find h)

end ClinicAdmin

/-- Empty store with fresh counters, used by the concrete scenarios. -/
def emptyStore : Store :=
  { users := [], clinics := [], therapists := [], parents := [], children := [],
    goals := [], tasks := [], assignments := [], roles := [], groups := [],
    availablePerms := [], nextUserId := 1, nextClinicId := 1 }

/-- An authenticated superuser with no role assigned. -/
def suNoRole : Actor :=
  { isAuthenticated := true, isSuperuser := true, isActive := true, role := none,
    clinicAdminOf := none, therapistProfile := none, parentProfile := none,
    userId := 1, modelPerms := [] }

/-- An authenticated superuser who also carries the Neuvii Admin role. -/
def suNeuviiAdmin : Actor :=
  { isAuthenticated := true, isSuperuser := true, isActive := true,
    role := some "Neuvii Admin", clinicAdminOf := none, therapistProfile := none,
    parentProfile := none, userId := 1, modelPerms := [] }

/-- An ordinary authenticated Parent-role actor. -/
def parentActor : Actor :=
  { isAuthenticated := true, isSuperuser := false, isActive := true,
    role := some "Parent", clinicAdminOf := none, therapistProfile := none,
    parentProfile := some 1, userId := 5, modelPerms := [] }

/-- An authenticated Therapist-role actor with no TherapistProfile row. -/
def thNoProfile : Actor :=
  { isAuthenticated := true, isSuperuser := false, isActive := true,
    role := some "Therapist", clinicAdminOf := none, therapistProfile := none,
    parentProfile := none, userId := 2, modelPerms := [] }

/-- Sample rows for the concrete scenarios. -/
def sampleUser9 : User :=
  { id := 9, email := "p@x.com", firstName := "Pat", lastName := "Quinn", role := some "Parent",
    isStaff := false, isSuperuser := false, isActive := true, passwordResetRequired := false,
    userPermissions := [], userGroups := [] }

def sampleClinic7 : Clinic :=
  { id := 7, name := "Sunrise", contactPersonName := some "Jane Doe",
    email := some "a@x.com", clinicAdmin := none, isActive := false }

def sampleTherapist3 : TherapistProfile :=
  { id := 3, firstName := "Tess", lastName := "Um", email := some "t@x.com",
    isActive := true, clinic := some 7, user := none }

def sampleParent1 : ParentProfile :=
  { id := 1, firstName := "Pat", lastName := "Quinn", parentEmail := some "p@x.com",
    isActive := true, user := some 9 }

def sampleChild1 : Child :=
  { id := 1, name := "Kim", age := 5, clinic := 7, parent := 1, assignedTherapist := some 3 }

def sampleGoal1 : Goal := { id := 1, child := 1, title := "speech", isLongTerm := false }

def sampleTask1 : TherapyTask := { id := 1, goal := 1, title := "drill", difficulty := "beginner" }

def sampleAssignment1 : Assignment :=
  { id := 1, child := 1, therapist := 3, task := 1, completed := false }

/-- A populated store: one user, clinic, therapist, parent, child, goal,
task and assignment, all chained together. -/
def sampleStore : Store :=
  { emptyStore with
      users := [sampleUser9], clinics := [sampleClinic7], therapists := [sampleTherapist3],
      parents := [sampleParent1], children := [sampleChild1], goals := [sampleGoal1],
      tasks := [sampleTask1], assignments := [sampleAssignment1],
      nextUserId := 10, nextClinicId := 8 }

/-- Deterministic oracle for the C6 witness: first draws are a
lowercase, an uppercase, a digit and a punctuation index. -/
def c6pick : Nat → Nat := fun n => [0, 26, 52, 62].getD n 0

/-- Clinic-creation input of the C4 scenario: contact "Jane Doe",
email "a@x.com", inactive clinic. -/
def c4input : ClinicInput :=
  { name := "Sunrise", contactPersonName := some "Jane Doe",
    email := some "a@x.com", isActive := false }

/-- Store produced by the admin creation flow on the C4 input. -/
def c4store : Store := (adminCreateClinic emptyStore c4input).toOption.getD emptyStore

/-- Filtering by email commutes with any email-preserving pointwise
rewrite of the user table. -/
theorem filter_email_map (l : List User) (g : User → User)
    (hg : ∀ u, (g u).email = u.email) (e : String) :
    (l.map g).filter (fun u => u.email == e)
      = (l.filter (fun u => u.email == e)).map g := by
  induction l with
  | nil => rfl
  | cons x xs ih =>
    by_cases hx : (x.email == e) = true <;>
      simp [List.filter, List.map, hg, hx, ih]

/-- Updating one user id inside a list keeps the list length. -/
theorem updateUser_length (l : List User) (uid : Nat) (f : User → User) :
    (l.map (fun u => if u.id == uid then f u else u)).length = l.length := by
  simp

/-- Search for a fresh id in an extended list lands on the new element. -/
theorem find?_append_freshClinic (l : List Clinic) (c : Clinic) (n : Nat)
    (hcn : c.id = n) (h : ∀ x ∈ l, x.id ≠ n) :
    ((l ++ [c]).find? (fun x => x.id == n)) = some c := by
  induction l with
  | nil => simp [List.find?, hcn]
  | cons x xs ih =>
    have hx : (x.id == n) = false := by
      simpa using h x (List.mem_cons_self x xs)
    simp only [List.cons_append, List.find?]
    rw [hx]
    exact ih (fun y hy => h y (List.mem_cons_of_mem x hy))

/-- A `getD` access stays inside the list provided the default is a member. -/
theorem getD_mem {α : Type} (l : List α) (n : Nat) (d : α) (hd : d ∈ l) :
    l.getD n d ∈ l := by
  by_cases h : n < l.length
  · rw [List.getD_eq_getElem l d h]
    exact List.getElem_mem h
  · rw [List.getD_eq_default l d (Nat.le_of_not_lt h)]
    exact hd

/-- Length of an oracle draw run. -/
theorem drawChars_length (alphabet : List Char) (pick : Nat → Nat) (off len : Nat) :
    (drawChars alphabet pick off len).length = len := by
  simp [drawChars]

/-- Draws stay inside the alphabet whenever the default does. -/
theorem drawChars_mem (alphabet : List Char) (pick : Nat → Nat) (off len : Nat)
    (hd : 'a' ∈ alphabet) :
    ∀ c ∈ drawChars alphabet pick off len, c ∈ alphabet := by
  intro c hc
  simp only [drawChars, List.mem_map, List.mem_range] at hc
  obtain ⟨i, _, rfl⟩ := hc
  exact getD_mem alphabet _ 'a' hd

/-- Group bookkeeping never touches the user table. -/
theorem ensureGroup_users (s : Store) (g : String) : (ensureGroup s g).users = s.users := by
  unfold ensureGroup
  split <;> rfl

/-- Default-group creation never touches the user table. -/
theorem ensureDefaultGroups_users (s : Store) : (ensureDefaultGroups s).users = s.users := by
  simp [ensureDefaultGroups, ensureGroup_users]

/-- Role bookkeeping never touches the user table. -/
theorem addRole_users (s : Store) (r : String) : (addRole s r).users = s.users := by
  unfold addRole
  by_cases hc : r ∈ s.roles
  · simp [hc]
  · cases hr : roleToGroup r <;> simp [hc, hr, ensureGroup_users]

/-- Members of the user table after a raw insert: an old user or the new
one with the inserted email. -/
theorem insertUser_ok_mem {s : Store} {e : String} {f : UserFields} {s' : Store} {uid : Nat}
    (h : insertUser s e f = .ok (s', uid)) :
    ∀ u ∈ s'.users, u ∈ s.users ∨ u.email = e := by
  unfold insertUser at h
  split at h
  · cases h
  · injection h with h1
    injection h1 with h2 h3
    subst h2
    intro u hu
    rw [ensureDefaultGroups_users] at hu
    rcases List.mem_append.mp hu with hold | hnew
    · exact Or.inl hold
    · right
      rcases List.mem_singleton.mp hnew with rfl
      rfl

/-- Members of the user table after `create_user`: an old user or the
new one carrying the normalized email. -/
theorem create_user_ok_mem {s : Store} {e : String} {f : UserFields} {s' : Store} {uid : Nat}
    (h : CustomUserManager.create_user s e f = .ok (s', uid)) :
    ∀ u ∈ s'.users, u ∈ s.users ∨ u.email = normalize_email e := by
  unfold CustomUserManager.create_user at h
  split at h
  · cases h
  · exact insertUser_ok_mem h

/-- A pointwise user-table rewrite by an email-preserving function keeps
every email in the table traceable to an email already present. -/
theorem map_mem_email (l : List User) (f : User → User)
    (hf : ∀ v, (f v).email = v.email) :
    ∀ u ∈ l.map f, ∃ v ∈ l, u.email = v.email := by
  intro u hu
  rcases List.mem_map.mp hu with ⟨v, hv, rfl⟩
  exact ⟨v, hv, hf v⟩

/-- A normalized nonempty email stays nonempty. -/
theorem normalize_email_ne_empty {e : String} (he : e ≠ "") : normalize_email e ≠ "" := by
  unfold normalize_email
  cases hs : splitLastAt (trimChars e.toList) with
  | none => exact he
  | some p =>
    intro hcontra
    have := congrArg String.length hcontra
    simp [String.length_append] at this
    exact absurd this.1.2 (by decide)

/-- Granting permissions rewrites the user table pointwise. -/
theorem grantPerms_users (s : Store) (uid : Nat) (codenames : List String) :
    (grantPerms s uid codenames).users
      = s.users.map (fun u => if u.id == uid then
          { u with userPermissions :=
              u.userPermissions ++ codenames.filter (fun c => s.availablePerms.contains c) }
          else u) := rfl

/-- Group membership rewrites the user table pointwise. -/
theorem addUserToGroup_users (s : Store) (uid : Nat) (g : String) :
    (addUserToGroup s uid g).users
      = s.users.map (fun u => if u.id == uid then
          { u with userGroups := if u.userGroups.contains g then u.userGroups
              else u.userGroups ++ [g] }
          else u) := rfl

/-- Back-linking a clinic admin never touches the user table. -/
theorem setClinicAdmin_users (s : Store) (cid uid : Nat) :
    (setClinicAdmin s cid uid).users = s.users := rfl

/-- Back-linking a therapist user never touches the user table. -/
theorem setTherapistUser_users (s : Store) (tid uid : Nat) :
    (setTherapistUser s tid uid).users = s.users := rfl

/-- Back-linking a parent user never touches the user table. -/
theorem setParentUser_users (s : Store) (pid uid : Nat) :
    (setParentUser s pid uid).users = s.users := rfl

/-- Frame facts for group bookkeeping: only `groups` changes. -/
theorem ensureGroup_clinics (s : Store) (g : String) : (ensureGroup s g).clinics = s.clinics := by
  unfold ensureGroup
  split <;> rfl

theorem ensureGroup_nextUserId (s : Store) (g : String) :
    (ensureGroup s g).nextUserId = s.nextUserId := by
  unfold ensureGroup
  split <;> rfl

theorem ensureGroup_nextClinicId (s : Store) (g : String) :
    (ensureGroup s g).nextClinicId = s.nextClinicId := by
  unfold ensureGroup
  split <;> rfl

theorem ensureGroup_availablePerms (s : Store) (g : String) :
    (ensureGroup s g).availablePerms = s.availablePerms := by
  unfold ensureGroup
  split <;> rfl

/-- Frame facts for the default-group receiver. -/
theorem ensureDefaultGroups_clinics (s : Store) :
    (ensureDefaultGroups s).clinics = s.clinics := by
  simp [ensureDefaultGroups, ensureGroup_clinics]

theorem ensureDefaultGroups_nextUserId (s : Store) :
    (ensureDefaultGroups s).nextUserId = s.nextUserId := by
  simp [ensureDefaultGroups, ensureGroup_nextUserId]

theorem ensureDefaultGroups_nextClinicId (s : Store) :
    (ensureDefaultGroups s).nextClinicId = s.nextClinicId := by
  simp [ensureDefaultGroups, ensureGroup_nextClinicId]

theorem ensureDefaultGroups_availablePerms (s : Store) :
    (ensureDefaultGroups s).availablePerms = s.availablePerms := by
  simp [ensureDefaultGroups, ensureGroup_availablePerms]

/-- Frame facts for role bookkeeping: only `roles` and `groups` change. -/
theorem addRole_clinics (s : Store) (r : String) : (addRole s r).clinics = s.clinics := by
  unfold addRole
  by_cases hc : r ∈ s.roles
  · simp [hc]
  · cases hr : roleToGroup r <;> simp [hc, hr, ensureGroup_clinics]

theorem addRole_nextUserId (s : Store) (r : String) :
    (addRole s r).nextUserId = s.nextUserId := by
  unfold addRole
  by_cases hc : r ∈ s.roles
  · simp [hc]
  · cases hr : roleToGroup r <;> simp [hc, hr, ensureGroup_nextUserId]

theorem addRole_nextClinicId (s : Store) (r : String) :
    (addRole s r).nextClinicId = s.nextClinicId := by
  unfold addRole
  by_cases hc : r ∈ s.roles
  · simp [hc]
  · cases hr : roleToGroup r <;> simp [hc, hr, ensureGroup_nextClinicId]

theorem addRole_availablePerms (s : Store) (r : String) :
    (addRole s r).availablePerms = s.availablePerms := by
  unfold addRole
  by_cases hc : r ∈ s.roles
  · simp [hc]
  · cases hr : roleToGroup r <;> simp [hc, hr, ensureGroup_availablePerms]

/-- Frame facts for the pointwise user-table rewrites. -/
theorem grantPerms_clinics (s : Store) (uid : Nat) (L : List String) :
    (grantPerms s uid L).clinics = s.clinics := rfl

theorem grantPerms_nextUserId (s : Store) (uid : Nat) (L : List String) :
    (grantPerms s uid L).nextUserId = s.nextUserId := rfl

theorem grantPerms_nextClinicId (s : Store) (uid : Nat) (L : List String) :
    (grantPerms s uid L).nextClinicId = s.nextClinicId := rfl

theorem addUserToGroup_clinics (s : Store) (uid : Nat) (g : String) :
    (addUserToGroup s uid g).clinics = s.clinics := rfl

theorem addUserToGroup_nextUserId (s : Store) (uid : Nat) (g : String) :
    (addUserToGroup s uid g).nextUserId = s.nextUserId := rfl

theorem addUserToGroup_nextClinicId (s : Store) (uid : Nat) (g : String) :
    (addUserToGroup s uid g).nextClinicId = s.nextClinicId := rfl

/-- Characterization of `ClinicAdmin.save_model` on a new clinic whose
contact email is fresh: the save succeeds, exactly one user row is
added — carrying the contact email, the split name, the Clinic Admin
role, staff and reset-required flags, and a hardcoded active flag — and
the clinic row is appended with its admin link set to that user. -/
theorem save_model_create_props (s : Store) (inp : ClinicInput) (e w : String) (ws : List String)
    (he : inp.email = some e) (hee : e ≠ "") (hnorm : normalize_email e = e)
    (hw : splitWords (inp.contactPersonName.getD "") = w :: ws)
    (hcn : truthyStr inp.contactPersonName = true)
    (hfresh : ∀ u ∈ s.users, u.email ≠ e) :
    ∃ s', ClinicAdmin.save_model_create s inp = .ok (s', s.nextClinicId)
      ∧ (s'.users.filter (fun u => u.email == e)).map
          (fun u => (u.id, u.firstName, u.lastName, u.role, u.isStaff,
                     u.isActive, u.passwordResetRequired))
          = [(s.nextUserId, w, if ws.length > 0 then " ".intercalate ws else "",
              some "Clinic Admin", true, true, true)]
      ∧ s'.users.length = s.users.length + 1
      ∧ s'.clinics = s.clinics
          ++ [{ id := s.nextClinicId, name := inp.name,
                contactPersonName := inp.contactPersonName, email := some e,
                clinicAdmin := some s.nextUserId, isActive := inp.isActive }] := by
  have hany : ((addRole s "Clinic Admin").users.any (fun u => u.email == e)) = false := by
    rw [addRole_users]
    exact List.any_eq_false.mpr (fun u hu => by simpa using hfresh u hu)
  unfold ClinicAdmin.save_model_create
  rw [he]
  have hg : (truthyStr (some e) && truthyStr inp.contactPersonName) = true := by
    rw [Bool.and_eq_true]
    exact ⟨by simp [truthyStr, hee], hcn⟩
  rw [if_pos hg, hw]
  dsimp only
  unfold CustomUserManager.create_user insertUser
  simp only [Option.getD_some]
  rw [if_neg hee, hnorm]
  rw [if_neg (by simp [hany])]
  dsimp only
  unfold insertClinic
  dsimp only
  rw [grantPerms_nextClinicId, addUserToGroup_nextClinicId, ensureGroup_nextClinicId,
    ensureDefaultGroups_nextClinicId]
  dsimp only
  rw [addRole_nextClinicId]
  refine ⟨_, rfl, ?_, ?_, ?_⟩
  · rw [grantPerms_users, addUserToGroup_users, ensureGroup_users, ensureDefaultGroups_users]
    dsimp only
    rw [addRole_users, addRole_nextUserId]
    rw [filter_email_map _ _ (fun u => by split <;> rfl),
      filter_email_map _ _ (fun u => by split <;> rfl)]
    rw [List.filter_append]
    have hnil : s.users.filter (fun u => u.email == e) = [] :=
      List.filter_eq_nil_iff.mpr (fun v hv => by simpa using hfresh v hv)
    rw [hnil]
    simp [mkUser]
  · rw [grantPerms_users, addUserToGroup_users, ensureGroup_users, ensureDefaultGroups_users]
    dsimp only
    rw [addRole_users]
    simp
  · rw [grantPerms_clinics, addUserToGroup_clinics, ensureGroup_clinics,
      ensureDefaultGroups_clinics]
    dsimp only
    rw [addRole_clinics, addRole_nextUserId, he]

/-- Characterization of the clinic post-save receiver on a clinic with a
fresh contact email and no linked admin: exactly one user row is added,
mirroring the clinic's active flag, and the clinic's admin link is set
to the new user. -/
theorem create_clinic_admin_user_props (s : Store) (cid : Nat) (c : Clinic) (e : String)
    (hc : findClinic s cid = some c) (he : c.email = some e) (hee : e ≠ "")
    (hnorm : normalize_email e = e)
    (hcn : truthyStr c.contactPersonName = true)
    (hadmin : c.clinicAdmin = none)
    (hfresh : ∀ u ∈ s.users, u.email ≠ e) :
    ((create_clinic_admin_user s cid true).users.filter (fun u => u.email == e)).map
        (fun u => (u.id, u.firstName, u.lastName, u.role, u.isStaff,
                   u.isActive, u.passwordResetRequired))
      = [(s.nextUserId, (splitWords (c.contactPersonName.getD "")).headD "Admin",
          if (splitWords (c.contactPersonName.getD "")).length > 1
            then " ".intercalate (splitWords (c.contactPersonName.getD "")).tail
            else "",
          some "Clinic Admin", true, c.isActive, true)]
    ∧ (create_clinic_admin_user s cid true).users.length = s.users.length + 1
    ∧ (create_clinic_admin_user s cid true).clinics
        = s.clinics.map (fun x => if x.id == cid then
            { x with clinicAdmin := some s.nextUserId } else x) := by
  have hany : ((addRole s "Clinic Admin").users.any (fun u => u.email == e)) = false := by
    rw [addRole_users]
    exact List.any_eq_false.mpr (fun u hu => by simpa using hfresh u hu)
  unfold create_clinic_admin_user
  rw [hc]
  dsimp only
  have hguard : (true && truthyStr c.email && truthyStr c.contactPersonName
      && (c.clinicAdmin == none)) = true := by
    rw [he, hadmin]
    rw [Bool.and_eq_true, Bool.and_eq_true, Bool.and_eq_true]
    exact ⟨⟨⟨rfl, by simp [truthyStr, hee]⟩, hcn⟩, rfl⟩
  rw [if_pos hguard]
  unfold CustomUserManager.create_user insertUser
  rw [he]
  simp only [Option.getD_some]
  rw [if_neg hee, hnorm]
  rw [if_neg (by simp [hany])]
  dsimp only
  refine ⟨?_, ?_, ?_⟩
  · rw [setClinicAdmin_users, grantPerms_users, addUserToGroup_users, ensureGroup_users,
      ensureDefaultGroups_users]
    dsimp only
    rw [addRole_users, addRole_nextUserId]
    rw [filter_email_map _ _ (fun u => by split <;> rfl),
      filter_email_map _ _ (fun u => by split <;> rfl)]
    rw [List.filter_append]
    have hnil : s.users.filter (fun u => u.email == e) = [] :=
      List.filter_eq_nil_iff.mpr (fun v hv => by simpa using hfresh v hv)
    rw [hnil]
    simp [mkUser]
  · rw [setClinicAdmin_users, grantPerms_users, addUserToGroup_users, ensureGroup_users,
      ensureDefaultGroups_users]
    dsimp only
    rw [addRole_users]
    simp
  · show (grantPerms _ _ _).clinics.map _ = _
    rw [grantPerms_clinics, addUserToGroup_clinics, ensureGroup_clinics,
      ensureDefaultGroups_clinics]
    dsimp only
    rw [addRole_clinics, addRole_nextUserId]

/-- Claim C1, counterexample: an authenticated superuser with no role
assigned is denied `add` by the therapist admin and receives empty
querysets from the therapist and clinic admins even though rows exist,
so the claim that a superuser always passes every check and sees the
unfiltered set is false as stated. -/
theorem c1_counterexample :
    suNoRole.isAuthenticated = true ∧ suNoRole.isSuperuser = true ∧ suNoRole.role = none
    ∧ TherapistProfileAdmin.has_add_permission suNoRole = false
    ∧ TherapistProfileAdmin.get_queryset suNoRole sampleStore = []
    ∧ sampleStore.therapists ≠ []
    ∧ ClinicAdmin.get_queryset suNoRole sampleStore = []
    ∧ sampleStore.clinics ≠ [] := by
  refine ⟨rfl, rfl, rfl, rfl, rfl, by decide, rfl, by decide⟩

/-- Claim C1, amended: for any authenticated superuser, every
module-level permission check passes, the data-mixin queryset is
unfiltered, `ClinicAdmin.has_add_permission` and all four `ChildAdmin`
object checks pass, the module-only view checks of the assignment, goal
and task admins pass, an active superuser also passes the
default-fallback view checks of the therapist and parent profile
admins, and `ClinicAdmin.get_queryset` is unfiltered whenever the
superuser carries any non-null role.  A superuser who also carries the
`Neuvii Admin` role passes every remaining check and receives the
unfiltered queryset for every entity type.  A superuser with no role
assigned is denied the remaining role-gated checks and receives the
empty queryset from all seven admin `get_queryset`s. -/
theorem c1_amended (u : Actor) (s : Store)
    (hAuth : u.isAuthenticated = true) (hSu : u.isSuperuser = true) :
    (ClinicAdmin.has_module_permission u = true
      ∧ TherapistProfileAdmin.has_module_permission u = true
      ∧ ParentProfileAdmin.has_module_permission u = true
      ∧ ChildAdmin.has_module_permission u = true
      ∧ AssignmentAdmin.has_module_permission u = true
      ∧ GoalAdmin.has_module_permission u = true
      ∧ TaskAdmin.has_module_permission u = true)
    ∧ TherapistDataMixin.get_queryset_child u s = s.children
    ∧ (ClinicAdmin.has_add_permission u = true
      ∧ (∀ o, ChildAdmin.has_view_permission u o = true)
      ∧ ChildAdmin.has_add_permission u = true
      ∧ (∀ o, ChildAdmin.has_change_permission u o = true)
      ∧ (∀ o, ChildAdmin.has_delete_permission u o = true)
      ∧ (∀ o, AssignmentAdmin.has_view_permission u o = true)
      ∧ (∀ o, GoalAdmin.has_view_permission u o = true)
      ∧ (∀ o, TaskAdmin.has_view_permission u o = true))
    ∧ (u.isActive = true →
      (∀ o, TherapistProfileAdmin.has_view_permission u o = true)
      ∧ (∀ o, ParentProfileAdmin.has_view_permission u o = true))
    ∧ (u.role ≠ none → ClinicAdmin.get_queryset u s = s.clinics)
    ∧ (u.role = some "Neuvii Admin" →
      ((∀ o, ClinicAdmin.has_view_permission u o = true)
        ∧ ClinicAdmin.has_add_permission u = true
        ∧ (∀ o, ClinicAdmin.has_change_permission u o = true)
        ∧ (∀ o, ClinicAdmin.has_delete_permission u o = true)
        ∧ ClinicAdmin.get_queryset u s = s.clinics)
      ∧ ((∀ o, TherapistProfileAdmin.has_view_permission u o = true)
        ∧ TherapistProfileAdmin.has_add_permission u = true
        ∧ (∀ o, TherapistProfileAdmin.has_change_permission u o = true)
        ∧ (∀ o, TherapistProfileAdmin.has_delete_permission u o = true)
        ∧ TherapistProfileAdmin.get_queryset u s = s.therapists)
      ∧ ((∀ o, ParentProfileAdmin.has_view_permission u o = true)
        ∧ ParentProfileAdmin.has_add_permission u = true
        ∧ (∀ o, ParentProfileAdmin.has_change_permission u o = true)
        ∧ (∀ o, ParentProfileAdmin.has_delete_permission u o = true)
        ∧ ParentProfileAdmin.get_queryset u s = s.parents)
      ∧ ((∀ o, ChildAdmin.has_view_permission u o = true)
        ∧ ChildAdmin.has_add_permission u = true
        ∧ (∀ o, ChildAdmin.has_change_permission u o = true)
        ∧ (∀ o, ChildAdmin.has_delete_permission u o = true)
        ∧ ChildAdmin.get_queryset u s = s.children)
      ∧ ((∀ o, AssignmentAdmin.has_view_permission u o = true)
        ∧ AssignmentAdmin.has_add_permission u = true
        ∧ (∀ o, AssignmentAdmin.has_change_permission u s o = true)
        ∧ (∀ o, AssignmentAdmin.has_delete_permission u o = true)
        ∧ AssignmentAdmin.get_queryset u s = s.assignments)
      ∧ ((∀ o, GoalAdmin.has_view_permission u o = true)
        ∧ GoalAdmin.has_add_permission u = true
        ∧ (∀ o, GoalAdmin.has_change_permission u o = true)
        ∧ (∀ o, GoalAdmin.has_delete_permission u o = true)
        ∧ GoalAdmin.get_queryset u s = s.goals)
      ∧ ((∀ o, TaskAdmin.has_view_permission u o = true)
        ∧ TaskAdmin.has_add_permission u = true
        ∧ (∀ o, TaskAdmin.has_change_permission u o = true)
        ∧ (∀ o, TaskAdmin.has_delete_permission u o = true)
        ∧ TaskAdmin.get_queryset u s = s.tasks))
    ∧ (u.role = none →
      (∀ o, ClinicAdmin.has_view_permission u o = false)
      ∧ (∀ o, ClinicAdmin.has_change_permission u o = false)
      ∧ (∀ o, ClinicAdmin.has_delete_permission u o = false)
      ∧ ClinicAdmin.get_queryset u s = []
      ∧ TherapistProfileAdmin.has_add_permission u = false
      ∧ (∀ o, TherapistProfileAdmin.has_change_permission u o = false)
      ∧ (∀ o, TherapistProfileAdmin.has_delete_permission u o = false)
      ∧ TherapistProfileAdmin.get_queryset u s = []
      ∧ ParentProfileAdmin.has_add_permission u = false
      ∧ (∀ o, ParentProfileAdmin.has_change_permission u o = false)
      ∧ (∀ o, ParentProfileAdmin.has_delete_permission u o = false)
      ∧ ParentProfileAdmin.get_queryset u s = []
      ∧ ChildAdmin.get_queryset u s = []
      ∧ AssignmentAdmin.has_add_permission u = false
      ∧ (∀ o, AssignmentAdmin.has_change_permission u s o = false)
      ∧ (∀ o, AssignmentAdmin.has_delete_permission u o = false)
      ∧ AssignmentAdmin.get_queryset u s = []
      ∧ GoalAdmin.has_add_permission u = false
      ∧ (∀ o, GoalAdmin.has_change_permission u o = false)
      ∧ (∀ o, GoalAdmin.has_delete_permission u o = false)
      ∧ GoalAdmin.get_queryset u s = []
      ∧ TaskAdmin.has_add_permission u = false
      ∧ (∀ o, TaskAdmin.has_change_permission u o = false)
      ∧ (∀ o, TaskAdmin.has_delete_permission u o = false)
      ∧ TaskAdmin.get_queryset u s = []) := by
  refine ⟨?_, ?_, ?_, ?_, ?_, ?_, ?_⟩
  · simp [ClinicAdmin.has_module_permission, TherapistProfileAdmin.has_module_permission,
      ParentProfileAdmin.has_module_permission, ChildAdmin.has_module_permission,
      AssignmentAdmin.has_module_permission, GoalAdmin.has_module_permission,
      TaskAdmin.has_module_permission, hAuth, hSu]
  · simp [TherapistDataMixin.get_queryset_child, hAuth, hSu]
  · simp [ClinicAdmin.has_add_permission, ChildAdmin.has_view_permission,
      ChildAdmin.has_add_permission, ChildAdmin.has_change_permission,
      ChildAdmin.has_delete_permission, ChildAdmin.has_module_permission,
      AssignmentAdmin.has_view_permission, AssignmentAdmin.has_module_permission,
      GoalAdmin.has_view_permission, GoalAdmin.has_module_permission,
      TaskAdmin.has_view_permission, TaskAdmin.has_module_permission, hAuth, hSu]
  · intro hAct
    simp [TherapistProfileAdmin.has_view_permission, TherapistProfileAdmin.has_module_permission,
      ParentProfileAdmin.has_view_permission, ParentProfileAdmin.has_module_permission,
      defaultHasViewPermission, djangoHasPerm, roleNameIs, hAuth, hSu, hAct]
  · intro hr
    cases hrr : u.role with
    | none => exact absurd hrr hr
    | some r => simp [ClinicAdmin.get_queryset, hAuth, hSu, hrr]
  · intro hRole
    simp [ClinicAdmin.has_module_permission, ClinicAdmin.has_view_permission,
      ClinicAdmin.has_add_permission, ClinicAdmin.has_change_permission,
      ClinicAdmin.has_delete_permission, ClinicAdmin.get_queryset,
      TherapistProfileAdmin.has_module_permission, TherapistProfileAdmin.has_view_permission,
      TherapistProfileAdmin.has_add_permission, TherapistProfileAdmin.has_change_permission,
      TherapistProfileAdmin.has_delete_permission, TherapistProfileAdmin.get_queryset,
      ParentProfileAdmin.has_module_permission, ParentProfileAdmin.has_view_permission,
      ParentProfileAdmin.has_add_permission, ParentProfileAdmin.has_change_permission,
      ParentProfileAdmin.has_delete_permission, ParentProfileAdmin.get_queryset,
      ChildAdmin.has_module_permission, ChildAdmin.has_view_permission,
      ChildAdmin.has_add_permission, ChildAdmin.has_change_permission,
      ChildAdmin.has_delete_permission, ChildAdmin.get_queryset,
      AssignmentAdmin.has_module_permission, AssignmentAdmin.has_view_permission,
      AssignmentAdmin.has_add_permission, AssignmentAdmin.has_change_permission,
      AssignmentAdmin.has_delete_permission, AssignmentAdmin.get_queryset,
      GoalAdmin.has_module_permission, GoalAdmin.has_view_permission,
      GoalAdmin.has_add_permission, GoalAdmin.has_change_permission,
      GoalAdmin.has_delete_permission, GoalAdmin.get_queryset,
      TaskAdmin.has_module_permission, TaskAdmin.has_view_permission,
      TaskAdmin.has_add_permission, TaskAdmin.has_change_permission,
      TaskAdmin.has_delete_permission, TaskAdmin.get_queryset,
      roleNameIs, hAuth, hSu, hRole]
  · intro hRole
    simp [ClinicAdmin.has_module_permission, ClinicAdmin.has_view_permission,
      ClinicAdmin.has_change_permission, ClinicAdmin.has_delete_permission,
      ClinicAdmin.get_queryset,
      TherapistProfileAdmin.has_module_permission, TherapistProfileAdmin.has_add_permission,
      TherapistProfileAdmin.has_change_permission, TherapistProfileAdmin.has_delete_permission,
      TherapistProfileAdmin.get_queryset,
      ParentProfileAdmin.has_module_permission, ParentProfileAdmin.has_add_permission,
      ParentProfileAdmin.has_change_permission, ParentProfileAdmin.has_delete_permission,
      ParentProfileAdmin.get_queryset,
      ChildAdmin.get_queryset,
      AssignmentAdmin.has_module_permission, AssignmentAdmin.has_add_permission,
      AssignmentAdmin.has_change_permission, AssignmentAdmin.has_delete_permission,
      AssignmentAdmin.get_queryset,
      GoalAdmin.has_module_permission, GoalAdmin.has_add_permission,
      GoalAdmin.has_change_permission, GoalAdmin.has_delete_permission,
      GoalAdmin.get_queryset,
      TaskAdmin.has_module_permission, TaskAdmin.has_add_permission,
      TaskAdmin.has_change_permission, TaskAdmin.has_delete_permission,
      TaskAdmin.get_queryset,
      roleNameIs, hAuth, hSu, hRole]

/-- Claim C1, witness: the amended statement instantiated at a concrete
superuser carrying the Neuvii Admin role (full task queryset) and at a
role-less superuser (clinic add still granted, task queryset empty). -/
theorem c1_witness :
    TaskAdmin.get_queryset suNeuviiAdmin sampleStore = sampleStore.tasks
    ∧ ClinicAdmin.has_add_permission suNoRole = true
    ∧ TaskAdmin.get_queryset suNoRole sampleStore = []
    ∧ TaskAdmin.has_module_permission suNoRole = true := by
  obtain ⟨_, _, _, _, _, hNA, _⟩ := c1_amended suNeuviiAdmin sampleStore rfl rfl
  obtain ⟨_, _, _, _, _, _, htask⟩ := hNA rfl
  obtain ⟨hmods, _, hgrants, _, _, _, hnone⟩ := c1_amended suNoRole sampleStore rfl rfl
  obtain ⟨_, _, _, _, _, _, _, _, _, _, _, _, _, _, _, _, _, _, _, _, _, _, _, _, hTq⟩ :=
    hnone rfl
  exact ⟨htask.2.2.2.2, hgrants.1, hTq, hmods.2.2.2.2.2.2⟩

/-- Claim C5: each provisioning receiver is a no-op on an entity that
already has a linked user — the store (users, roles, groups,
permissions, entities alike) is returned unchanged. -/
theorem c5_provisioning_idempotent (s : Store) (created : Bool) :
    (∀ cid c, findClinic s cid = some c → c.clinicAdmin ≠ none →
      create_clinic_admin_user s cid created = s)
    ∧ (∀ tid t, findTherapist s tid = some t → t.user ≠ none →
      create_therapist_user s tid created = s)
    ∧ (∀ pid p, findParent s pid = some p → p.user ≠ none →
      create_parent_user s pid created = s) := by
  refine ⟨?_, ?_, ?_⟩
  · intro cid c hc hadmin
    unfold create_clinic_admin_user
    rw [hc]
    have hb : (c.clinicAdmin == none) = false := by
      cases h : c.clinicAdmin with
      | none => exact absurd h hadmin
      | some x => rfl
    simp [hb]
  · intro tid t ht huser
    unfold create_therapist_user
    rw [ht]
    have hb : (t.user == none) = false := by
      cases h : t.user with
      | none => exact absurd h huser
      | some x => rfl
    simp [hb]
  · intro pid p hp huser
    unfold create_parent_user
    rw [hp]
    have hb : (p.user == none) = false := by
      cases h : p.user with
      | none => exact absurd h huser
      | some x => rfl
    simp [hb]

/-- Claim C5, witness: re-invoking each receiver on the sample store,
whose clinic has been linked to an admin and whose profiles are linked
to users, returns the store unchanged. -/
theorem c5_witness :
    create_therapist_user
        { sampleStore with therapists := [{ sampleTherapist3 with user := some 9 }] } 3 true
      = { sampleStore with therapists := [{ sampleTherapist3 with user := some 9 }] }
    ∧ create_parent_user sampleStore 1 true = sampleStore := by
  constructor
  · exact (c5_provisioning_idempotent
      { sampleStore with therapists := [{ sampleTherapist3 with user := some 9 }] } true).2.1
      3 { sampleTherapist3 with user := some 9 } (by decide) (by decide)
  · exact (c5_provisioning_idempotent sampleStore true).2.2 1 sampleParent1 (by decide) (by decide)

/-- Claim C7: a Parent-role actor always receives the empty Task
queryset, whatever the store holds, and (unless the account is also a
superuser, which rule 1 of the hierarchy handles first) is denied module
access to Task. -/
theorem c7_parent_task_hidden (u : Actor) (s : Store) (h : u.role = some "Parent") :
    TaskAdmin.get_queryset u s = []
    ∧ (u.isSuperuser = false → TaskAdmin.has_module_permission u = false) := by
  constructor
  · unfold TaskAdmin.get_queryset
    by_cases ha : u.isAuthenticated <;> simp [ha, h]
  · intro hsu
    unfold TaskAdmin.has_module_permission
    by_cases ha : u.isAuthenticated <;> simp [ha, hsu, h]

/-- Claim C7, witness: a concrete parent actor over the sample store,
which does contain a task. -/
theorem c7_witness :
    TaskAdmin.get_queryset parentActor sampleStore = []
    ∧ sampleStore.tasks ≠ []
    ∧ TaskAdmin.has_module_permission parentActor = false := by
  obtain ⟨h1, h2⟩ := c7_parent_task_hidden parentActor sampleStore rfl
  exact ⟨h1, by decide, h2 rfl⟩

/-- Claim C2, counterexample: the sample store's parent profile 1 is
linked to user 9; deleting the profile removes the profile (and its
children) but user 9 is still present afterwards, so the claimed
cascade onto the linked User account does not happen. -/
theorem c2_counterexample :
    (sampleStore.parents.any (fun p => p.id == 1 && p.user == some 9)) = true
    ∧ (sampleStore.users.any (fun u => u.id == 9)) = true
    ∧ ((deleteParentProfile sampleStore 1).parents.any (fun p => p.id == 1)) = false
    ∧ ((deleteParentProfile sampleStore 1).users.any (fun u => u.id == 9)) = true := by
  decide

/-- Claim C2, amended: deleting a ParentProfile removes the profile, all
its Children, and transitively their Goals, Tasks and Assignments — but
the user table is left untouched (the `ParentProfile.user` CASCADE runs
from the User side, not from the profile side). -/
theorem c2_amended (s : Store) (pid : Nat) :
    (deleteParentProfile s pid).users = s.users
    ∧ (∀ p ∈ (deleteParentProfile s pid).parents, p.id ≠ pid)
    ∧ (∀ c ∈ (deleteParentProfile s pid).children, c.parent ≠ pid)
    ∧ (∀ g ∈ (deleteParentProfile s pid).goals, ∀ c ∈ s.children,
        c.parent = pid → g.child ≠ c.id)
    ∧ (∀ t ∈ (deleteParentProfile s pid).tasks, ∀ g ∈ s.goals, ∀ c ∈ s.children,
        c.parent = pid → g.child = c.id → t.goal ≠ g.id)
    ∧ (∀ a ∈ (deleteParentProfile s pid).assignments, ∀ c ∈ s.children,
        c.parent = pid → a.child ≠ c.id) := by
  refine ⟨rfl, ?_, ?_, ?_, ?_, ?_⟩
  · intro p hp
    simp [deleteParentProfile, List.mem_filter] at hp
    exact hp.2
  · intro c hc
    simp [deleteParentProfile, List.mem_filter] at hc
    exact hc.2
  · intro g hg c hc hcp
    simp [deleteParentProfile, List.mem_filter] at hg
    intro heq
    exact hg.2 c hc hcp heq.symm
  · intro t ht g hg c hc hcp hgc
    simp [deleteParentProfile, List.mem_filter] at ht
    intro heq
    exact ht.2 g hg c hc hcp hgc.symm heq.symm
  · intro a ha c hc hcp
    simp [deleteParentProfile, List.mem_filter] at ha
    intro heq
    exact ha.2.1 c hc hcp heq.symm

/-- Claim C2, witness: the amended statement instantiated on the sample
store, whose parent 1 owns child 1 with goal, task and assignment. -/
theorem c2_witness :
    (deleteParentProfile sampleStore 1).users = sampleStore.users
    ∧ (∀ g ∈ (deleteParentProfile sampleStore 1).goals, ∀ c ∈ sampleStore.children,
        c.parent = 1 → g.child ≠ c.id) := by
  obtain ⟨h1, _, _, h4, _, _⟩ := c2_amended sampleStore 1
  exact ⟨h1, h4⟩

/-- Claim C3: creating a clinic through the admin flow with a contact
email already carried by an existing user fails at form validation with
the "already registered" error; the flow returns the error before any
write, so no clinic row and no user row is produced.  On the
asynchronous signal path (a direct ORM create) the receiver swallows
the `IntegrityError` and likewise adds no user row. -/
theorem c3_duplicate_email_rejected (s : Store) (inp : ClinicInput) (u : User)
    (hu : u ∈ s.users) (he : inp.email = some u.email) (hne : u.email ≠ "")
    (hc : truthyStr inp.contactPersonName = true)
    (hun : normalize_email u.email = u.email) :
    adminCreateClinic s inp = .error ("Email " ++ u.email ++ " is already registered.")
    ∧ (∀ cid created c, findClinic s cid = some c → c.email = some u.email →
        (create_clinic_admin_user s cid created).users = s.users) := by
  constructor
  · have h1 : truthyStr (some u.email) = true := by
      simpa [truthyStr] using hne
    have h2 : ∃ x ∈ s.users, x.email = u.email := ⟨u, hu, rfl⟩
    unfold adminCreateClinic ClinicForm.clean
    simp [he, h1, h2, hc]
  · intro cid created c hfc hce
    unfold create_clinic_admin_user
    cases hfc2 : findClinic s cid with
    | none => rfl
    | some c2 =>
    rw [hfc2] at hfc
    injection hfc with hc2
    rw [hc2]
    by_cases hg : (created && truthyStr c.email && truthyStr c.contactPersonName
        && (c.clinicAdmin == none)) = true
    · simp only [hg, if_true]
      unfold CustomUserManager.create_user insertUser
      rw [hce]
      simp only [Option.getD_some]
      rw [if_neg hne, hun]
      have hany : ((addRole s "Clinic Admin").users.any (fun v => v.email == u.email))
          = true := by
        rw [addRole_users]
        exact List.any_eq_true.mpr ⟨u, hu, by simp⟩
      rw [if_pos hany]
      exact addRole_users s "Clinic Admin"
    · simp [hg]

/-- Claim C3, witness: reusing sample user 9's email for a new clinic is
rejected without touching the store. -/
theorem c3_witness :
    adminCreateClinic sampleStore
        { name := "New", contactPersonName := some "Jane Doe",
          email := some "p@x.com", isActive := true }
      = .error "Email p@x.com is already registered." := by
  exact (c3_duplicate_email_rejected sampleStore _ sampleUser9 (by decide) rfl
    (by decide) (by decide) (by decide)).1

/-- Claim C8, counterexample: a Therapist-role actor with no
TherapistProfile row still passes `TaskAdmin.has_add_permission`, the
instance-level `AssignmentAdmin.has_change_permission`, and the parent
module check, so "every permission check denies" is false as stated. -/
theorem c8_counterexample :
    thNoProfile.role = some "Therapist" ∧ thNoProfile.therapistProfile = none
    ∧ thNoProfile.parentProfile = none
    ∧ TaskAdmin.has_add_permission thNoProfile = true
    ∧ AssignmentAdmin.has_change_permission thNoProfile sampleStore (some sampleAssignment1) = true
    ∧ ParentProfileAdmin.has_module_permission thNoProfile = true := by
  decide

/-- Claim C8, amended: a non-superuser Therapist- or Parent-role actor
with no linked profile receives the empty queryset from every admin and
from the data mixin, and a profile-less Parent fails the instance-level
Assignment ownership check; every path resolves to deny or empty
without raising.  (Role-name-only checks such as
`TaskAdmin.has_add_permission` still pass for such actors.) -/
theorem c8_amended (u : Actor) (s : Store)
    (hrole : u.role = some "Therapist" ∨ u.role = some "Parent")
    (hsu : u.isSuperuser = false)
    (ht : u.therapistProfile = none) (hp : u.parentProfile = none) :
    ClinicAdmin.get_queryset u s = []
    ∧ TherapistProfileAdmin.get_queryset u s = []
    ∧ ParentProfileAdmin.get_queryset u s = []
    ∧ ChildAdmin.get_queryset u s = []
    ∧ AssignmentAdmin.get_queryset u s = []
    ∧ GoalAdmin.get_queryset u s = []
    ∧ TaskAdmin.get_queryset u s = []
    ∧ TherapistDataMixin.get_queryset_child u s = []
    ∧ (u.role = some "Parent" → (∀ p ∈ s.parents, p.user ≠ some u.userId) →
        ∀ a, AssignmentAdmin.has_change_permission u s (some a) = false) := by
  have hown : (∀ p ∈ s.parents, p.user ≠ some u.userId) →
      ∀ a, ownsAssignmentAsParent u s a = false := by
    intro hpar a
    unfold ownsAssignmentAsParent
    cases hch : findChild s a.child with
    | none => simp [hch]
    | some ch =>
      cases hpp : findParent s ch.parent with
      | none => simp [hch, hpp]
      | some p =>
        have hpp' : s.parents.find? (fun q => q.id == ch.parent) = some p := hpp
        have hmem : p ∈ s.parents := List.mem_of_find?_eq_some hpp'
        simp [hch, hpp]
        exact hpar p hmem
  have hlast : u.role = some "Parent" → (∀ p ∈ s.parents, p.user ≠ some u.userId) →
      ∀ a, AssignmentAdmin.has_change_permission u s (some a) = false := by
    intro hpr hpar a
    unfold AssignmentAdmin.has_change_permission AssignmentAdmin.has_module_permission
    by_cases ha : u.isAuthenticated <;> simp [ha, hpr, hsu, hown hpar a]
  rcases hrole with h | h <;>
    refine ⟨?_, ?_, ?_, ?_, ?_, ?_, ?_, ?_, hlast⟩ <;>
    first
      | (unfold ClinicAdmin.get_queryset
         by_cases ha : u.isAuthenticated <;> simp [ha, h, hsu])
      | (unfold TherapistProfileAdmin.get_queryset
         by_cases ha : u.isAuthenticated <;> simp [ha, h, ht])
      | (unfold ParentProfileAdmin.get_queryset
         by_cases ha : u.isAuthenticated <;> simp [ha, h, ht, hp])
      | (unfold ChildAdmin.get_queryset
         by_cases ha : u.isAuthenticated <;> simp [ha, h])
      | (unfold AssignmentAdmin.get_queryset
         by_cases ha : u.isAuthenticated <;> simp [ha, h, ht, hp])
      | (unfold GoalAdmin.get_queryset
         by_cases ha : u.isAuthenticated <;> simp [ha, h, ht, hp])
      | (unfold TaskAdmin.get_queryset
         by_cases ha : u.isAuthenticated <;> simp [ha, h, ht])
      | (unfold TherapistDataMixin.get_queryset_child
         by_cases ha : u.isAuthenticated <;> simp [ha, h, hsu, ht, hp])

/-- Claim C8, witness: the amended statement instantiated at a concrete
profile-less therapist over the sample store. -/
theorem c8_witness :
    TherapistProfileAdmin.get_queryset thNoProfile sampleStore = []
    ∧ AssignmentAdmin.get_queryset thNoProfile sampleStore = []
    ∧ TaskAdmin.get_queryset thNoProfile sampleStore = [] := by
  obtain ⟨_, h2, _, _, h5, _, h7, _, _⟩ :=
    c8_amended thNoProfile sampleStore (Or.inl rfl) rfl rfl rfl
  exact ⟨h2, h5, h7⟩

/-- Claim C6: each generator emits exactly 12 characters of its declared
alphabet for every draw oracle, and the admin-triggered rejection
sampler returns a draft containing at least one lowercase, one
uppercase, one digit and one punctuation character (given the
termination witness that some retry is valid, which is exactly when the
source's `while True` loop terminates).  `secrets.choice` itself — the
cryptographic randomness source — is abstracted as the oracle. -/
theorem c6_generators (pick : Nat → Nat)
    (h : ∃ k, validDraft (adminDraft pick 12 k) = true) :
    (ClinicModels.generate_temp_password pick 12).length = 12
    ∧ (∀ c ∈ ClinicModels.generate_temp_password pick 12, c ∈ fullAlphabet)
    ∧ (UserModel.generate_temp_password pick).length = 12
    ∧ (∀ c ∈ UserModel.generate_temp_password pick, c ∈ userModelAlphabet)
    ∧ (ClinicAdmin.generate_temp_password pick 12 h).length = 12
    ∧ (∀ c ∈ ClinicAdmin.generate_temp_password pick 12 h, c ∈ fullAlphabet)
    ∧ (ClinicAdmin.generate_temp_password pick 12 h).any (fun c => c.isLower) = true
    ∧ (ClinicAdmin.generate_temp_password pick 12 h).any (fun c => c.isUpper) = true
    ∧ (ClinicAdmin.generate_temp_password pick 12 h).any (fun c => c.isDigit) = true
    ∧ (ClinicAdmin.generate_temp_password pick 12 h).any
        (fun c => punctuationChars.contains c) = true := by
  have hspec := Nat.find_spec h
  rw [validDraft, Bool.and_eq_true, Bool.and_eq_true, Bool.and_eq_true] at hspec
  refine ⟨drawChars_length _ _ _ _, drawChars_mem _ _ _ _ (by decide),
    drawChars_length _ _ _ _, drawChars_mem _ _ _ _ (by decide),
    drawChars_length _ _ _ _, drawChars_mem _ _ _ _ (by decide),
    hspec.1.1.1, hspec.1.1.2, hspec.1.2, hspec.2⟩

/-- Claim C6, witness: the rejection loop terminates on the very first
draft of the concrete oracle, and the user-model generator emits 12
characters for it. -/
theorem c6_witness :
    (∃ k, validDraft (adminDraft c6pick 12 k) = true)
    ∧ (UserModel.generate_temp_password c6pick).length = 12 :=
  ⟨⟨0, by decide⟩, (c6_generators c6pick ⟨0, by decide⟩).2.2.1⟩

/-- Claim C10: `create_user` with a falsy email raises
`ValueError("The Email field must be set")` — the error return carries
no store, and the check precedes any write, so nothing is persisted —
and consequently every provisioning receiver preserves the invariant
that no stored user has an empty email (the therapist/parent receivers,
which bypass `create_user` via `objects.create`, preserve it through
their own truthiness guards on the contact email). -/
theorem c10_no_user_without_email (s : Store) (f : UserFields) :
    CustomUserManager.create_user s "" f = .error "The Email field must be set"
    ∧ (∀ s2 : Store, (∀ u ∈ s2.users, u.email ≠ "") →
        (∀ cid created, ∀ u ∈ (create_clinic_admin_user s2 cid created).users, u.email ≠ "")
        ∧ (∀ tid created, ∀ u ∈ (create_therapist_user s2 tid created).users, u.email ≠ "")
        ∧ (∀ pid created, ∀ u ∈ (create_parent_user s2 pid created).users, u.email ≠ "")) := by
  constructor
  · rfl
  · intro s2 hinv
    refine ⟨?_, ?_, ?_⟩
    · intro cid created
      unfold create_clinic_admin_user
      cases hc : findClinic s2 cid with
      | none => exact hinv
      | some c =>
        by_cases hg : (created && truthyStr c.email && truthyStr c.contactPersonName
            && (c.clinicAdmin == none)) = true
        · dsimp only
          rw [if_pos hg]
          have hemail : c.email.getD "" ≠ "" := by
            have ht : truthyStr c.email = true := by
              have hg' := hg
              simp [Bool.and_eq_true] at hg'
              exact hg'.1.1.2
            cases hm : c.email with
            | none => rw [hm] at ht; simp [truthyStr] at ht
            | some e0 => rw [hm] at ht; simpa [truthyStr] using ht
          generalize hcu : CustomUserManager.create_user _ _ _ = res
          cases res with
          | error e =>
            intro u hu
            rw [addRole_users] at hu
            exact hinv u hu
          | ok pr =>
            obtain ⟨s3, uid⟩ := pr
            intro u hu
            rw [setClinicAdmin_users, grantPerms_users, addUserToGroup_users,
              ensureGroup_users] at hu
            obtain ⟨v, hv, hveq⟩ := map_mem_email _ _ (fun v => by split <;> rfl) u hu
            obtain ⟨w, hw, hweq⟩ := map_mem_email _ _ (fun v => by split <;> rfl) v hv
            rcases create_user_ok_mem hcu w hw with hold | hnew
            · rw [addRole_users] at hold
              rw [hveq, hweq]
              exact hinv w hold
            · rw [hveq, hweq, hnew]
              exact normalize_email_ne_empty hemail
        · dsimp only
          rw [if_neg hg]
          exact hinv
    · intro tid created
      unfold create_therapist_user
      cases hc : findTherapist s2 tid with
      | none => exact hinv
      | some t =>
        by_cases hg : (created && truthyStr t.email && (t.user == none)) = true
        · dsimp only
          rw [if_pos hg]
          have hemail : t.email.getD "" ≠ "" := by
            have ht : truthyStr t.email = true := by
              have hg' := hg
              simp [Bool.and_eq_true] at hg'
              exact hg'.1.2
            cases hm : t.email with
            | none => rw [hm] at ht; simp [truthyStr] at ht
            | some e0 => rw [hm] at ht; simpa [truthyStr] using ht
          generalize hcu : objectsCreateUser _ _ _ = res
          cases res with
          | error e =>
            intro u hu
            rw [addRole_users] at hu
            exact hinv u hu
          | ok pr =>
            obtain ⟨s3, uid⟩ := pr
            intro u hu
            rw [setTherapistUser_users, grantPerms_users, addUserToGroup_users,
              ensureGroup_users] at hu
            obtain ⟨v, hv, hveq⟩ := map_mem_email _ _ (fun v => by split <;> rfl) u hu
            obtain ⟨w, hw, hweq⟩ := map_mem_email _ _ (fun v => by split <;> rfl) v hv
            rcases insertUser_ok_mem hcu w hw with hold | hnew
            · rw [addRole_users] at hold
              rw [hveq, hweq]
              exact hinv w hold
            · rw [hveq, hweq, hnew]
              exact hemail
        · dsimp only
          rw [if_neg hg]
          exact hinv
    · intro pid created
      unfold create_parent_user
      cases hc : findParent s2 pid with
      | none => exact hinv
      | some p =>
        by_cases hg : (created && truthyStr p.parentEmail && (p.user == none)) = true
        · dsimp only
          rw [if_pos hg]
          have hemail : p.parentEmail.getD "" ≠ "" := by
            have ht : truthyStr p.parentEmail = true := by
              have hg' := hg
              simp [Bool.and_eq_true] at hg'
              exact hg'.1.2
            cases hm : p.parentEmail with
            | none => rw [hm] at ht; simp [truthyStr] at ht
            | some e0 => rw [hm] at ht; simpa [truthyStr] using ht
          generalize hcu : objectsCreateUser _ _ _ = res
          cases res with
          | error e =>
            intro u hu
            rw [addRole_users] at hu
            exact hinv u hu
          | ok pr =>
            obtain ⟨s3, uid⟩ := pr
            intro u hu
            rw [setParentUser_users] at hu
            unfold assign_to_group at hu
            rw [addUserToGroup_users, ensureGroup_users] at hu
            obtain ⟨w, hw, hweq⟩ := map_mem_email _ _ (fun v => by split <;> rfl) u hu
            rcases insertUser_ok_mem hcu w hw with hold | hnew
            · rw [addRole_users] at hold
              rw [hweq]
              exact hinv w hold
            · rw [hweq, hnew]
              exact hemail
        · dsimp only
          rw [if_neg hg]
          exact hinv

/-- Claim C10, witness: the empty email is rejected on the sample store,
and the invariant instantiates on it. -/
theorem c10_witness :
    CustomUserManager.create_user sampleStore ""
        { firstName := "X", lastName := "Y", role := none, isStaff := false,
          isActive := true, passwordResetRequired := true }
      = .error "The Email field must be set"
    ∧ (∀ u ∈ (create_parent_user sampleStore 1 true).users, u.email ≠ "") := by
  obtain ⟨h1, h2⟩ := c10_no_user_without_email sampleStore
    { firstName := "X", lastName := "Y", role := none, isStaff := false,
      isActive := true, passwordResetRequired := true }
  exact ⟨h1, ((h2 sampleStore (by decide)).2.2) 1 true⟩

/-- Claim C4, counterexample: creating an inactive clinic through the
admin flow yields a user whose active flag is true while the clinic's
active flag is false, so the claimed "active flag equal to the clinic's
active flag" fails on the admin save path (`is_active=True` is
hardcoded there). -/
theorem c4_counterexample :
    (c4store.users.map (fun u => (u.email, u.isActive))) = [("a@x.com", true)]
    ∧ (c4store.clinics.map (fun c => (c.email, c.isActive))) = [(some "a@x.com", false)] := by
  decide

/-- Claim C4, amended: creating a Clinic with email "a@x.com" and
contact person "Jane Doe" (no user with that email) yields exactly one
new user with first name "Jane", last name "Doe", the Clinic Admin
role, staff and reset-required flags set, and the clinic's admin link
set to that user — but the user's active flag mirrors the clinic's only
on the signal path; the admin save path hardcodes it to true. -/
theorem c4_amended (s : Store) (nm : String) (b : Bool)
    (hfresh : ∀ u ∈ s.users, u.email ≠ "a@x.com")
    (hcfresh : ∀ c ∈ s.clinics, c.id ≠ s.nextClinicId) :
    (∃ s', adminCreateClinic s
        { name := nm, contactPersonName := some "Jane Doe",
          email := some "a@x.com", isActive := b } = .ok s'
      ∧ (s'.users.filter (fun u => u.email == "a@x.com")).map
          (fun u => (u.id, u.firstName, u.lastName, u.role, u.isStaff,
                     u.isActive, u.passwordResetRequired))
          = [(s.nextUserId, "Jane", "Doe", some "Clinic Admin", true, true, true)]
      ∧ s'.users.length = s.users.length + 1
      ∧ s'.clinics = s.clinics
          ++ [{ id := s.nextClinicId, name := nm,
                contactPersonName := some "Jane Doe", email := some "a@x.com",
                clinicAdmin := some s.nextUserId, isActive := b }])
    ∧ (∀ cid c, findClinic s cid = some c → c.email = some "a@x.com" →
        c.contactPersonName = some "Jane Doe" → c.clinicAdmin = none →
        ((create_clinic_admin_user s cid true).users.filter
            (fun u => u.email == "a@x.com")).map
            (fun u => (u.id, u.firstName, u.lastName, u.role, u.isStaff,
                       u.isActive, u.passwordResetRequired))
          = [(s.nextUserId, "Jane", "Doe", some "Clinic Admin", true, c.isActive, true)]
        ∧ (create_clinic_admin_user s cid true).users.length = s.users.length + 1
        ∧ (create_clinic_admin_user s cid true).clinics
            = s.clinics.map (fun x => if x.id == cid then
                { x with clinicAdmin := some s.nextUserId } else x)) := by
  constructor
  · obtain ⟨s1, heq, hfilter, hlen, hclinics⟩ :=
      save_model_create_props s
        { name := nm, contactPersonName := some "Jane Doe",
          email := some "a@x.com", isActive := b }
        "a@x.com" "Jane" ["Doe"] rfl (by decide) (by decide) rfl rfl hfresh
    have hclinics' : s1.clinics = s.clinics
        ++ [{ id := s.nextClinicId, name := nm, contactPersonName := some "Jane Doe",
              email := some "a@x.com", clinicAdmin := some s.nextUserId,
              isActive := b }] := hclinics
    have hsig : create_clinic_admin_user s1 s.nextClinicId true = s1 := by
      unfold create_clinic_admin_user
      have hfind : findClinic s1 s.nextClinicId
          = some { id := s.nextClinicId, name := nm, contactPersonName := some "Jane Doe",
                   email := some "a@x.com", clinicAdmin := some s.nextUserId,
                   isActive := b } := by
        unfold findClinic
        rw [hclinics']
        exact find?_append_freshClinic _ _ _ rfl hcfresh
      rw [hfind]
      dsimp only
      rw [if_neg (by simp)]
    refine ⟨s1, ?_, by simpa using hfilter, hlen, hclinics'⟩
    unfold adminCreateClinic
    have hno : (s.users.any (fun u => some u.email == some "a@x.com")) = false := by
      rw [List.any_eq_false]
      intro u hu
      simpa using hfresh u hu
    have hclean : ClinicForm.clean s (some "a@x.com") (some "Jane Doe") = .ok () := by
      unfold ClinicForm.clean
      have hcond : ¬ ((s.users.any (fun u => some u.email == some "a@x.com")) = true) := by
        rw [hno]
        exact Bool.false_ne_true
      rw [if_neg (by decide), if_neg (by decide), if_neg hcond]
    dsimp only
    rw [hclean]
    dsimp only
    rw [heq]
    dsimp only
    rw [hsig]
  · intro cid c hc he hcn hadmin
    obtain ⟨h1, h2, h3⟩ := create_clinic_admin_user_props s cid c "a@x.com" hc he
      (by decide) (by decide) (by rw [hcn]; decide) hadmin hfresh
    have hx : (splitWords ((some "Jane Doe" : Option String).getD "")).headD "Admin"
        = "Jane" := by decide
    have hy : (if (splitWords ((some "Jane Doe" : Option String).getD "")).length > 1
        then " ".intercalate (splitWords ((some "Jane Doe" : Option String).getD "")).tail
        else "") = "Doe" := by decide
    rw [hcn, hx, hy] at h1
    exact ⟨h1, h2, h3⟩

/-- Claim C4, witness: the amended admin-path statement instantiated on
the empty store and the C4 input. -/
theorem c4_witness :
    ∃ s', adminCreateClinic emptyStore c4input = .ok s'
      ∧ (s'.users.filter (fun u => u.email == "a@x.com")).map
          (fun u => (u.id, u.firstName, u.lastName, u.role, u.isStaff,
                     u.isActive, u.passwordResetRequired))
          = [(1, "Jane", "Doe", some "Clinic Admin", true, true, true)] := by
  obtain ⟨⟨s', h1, h2, _, _⟩, _⟩ :=
    c4_amended emptyStore "Sunrise" false (by simp [emptyStore]) (by simp [emptyStore])
  exact ⟨s', h1, h2⟩

/-- Claim C9: on the admin save path with both contact fields and a
fresh email, the clinic is persisted already carrying its admin link,
exactly one user row is created, and the post-save receiver — invoked
with `created = true` on the freshly persisted clinic — finds the link
set and does nothing, so the two provisioning paths can never both
fire. -/
theorem c9_single_provisioning (s : Store) (inp : ClinicInput) (e w : String) (ws : List String)
    (he : inp.email = some e) (hee : e ≠ "") (hnorm : normalize_email e = e)
    (hw : splitWords (inp.contactPersonName.getD "") = w :: ws)
    (hcn : truthyStr inp.contactPersonName = true)
    (hfresh : ∀ u ∈ s.users, u.email ≠ e)
    (hcfresh : ∀ c ∈ s.clinics, c.id ≠ s.nextClinicId) :
    ∃ s', ClinicAdmin.save_model_create s inp = .ok (s', s.nextClinicId)
      ∧ s'.users.length = s.users.length + 1
      ∧ (∃ c, findClinic s' s.nextClinicId = some c ∧ c.clinicAdmin = some s.nextUserId)
      ∧ create_clinic_admin_user s' s.nextClinicId true = s'
      ∧ adminCreateClinic s inp = .ok s' := by
  obtain ⟨s1, heq, hfilter, hlen, hclinics⟩ :=
    save_model_create_props s inp e w ws he hee hnorm hw hcn hfresh
  have hfind : findClinic s1 s.nextClinicId
      = some { id := s.nextClinicId, name := inp.name,
               contactPersonName := inp.contactPersonName, email := some e,
               clinicAdmin := some s.nextUserId, isActive := inp.isActive } := by
    unfold findClinic
    rw [hclinics]
    exact find?_append_freshClinic _ _ _ rfl hcfresh
  have hsig : create_clinic_admin_user s1 s.nextClinicId true = s1 := by
    unfold create_clinic_admin_user
    rw [hfind]
    dsimp only
    rw [if_neg (by simp)]
  have hclean : ClinicForm.clean s inp.email inp.contactPersonName = .ok () := by
    unfold ClinicForm.clean
    rw [he]
    have hcond3 : ¬ ((s.users.any (fun u => some u.email == some e)) = true) := by
      rw [show (s.users.any (fun u => some u.email == some e)) = false from by
        rw [List.any_eq_false]
        intro u hu
        simpa using hfresh u hu]
      exact Bool.false_ne_true
    rw [if_neg (by simp [truthyStr, hee]), if_neg (by rw [hcn]; decide), if_neg hcond3]
  refine ⟨s1, heq, hlen, ⟨_, hfind, rfl⟩, hsig, ?_⟩
  unfold adminCreateClinic
  rw [hclean]
  dsimp only
  rw [heq]
  dsimp only
  rw [hsig]

/-- Claim C9, witness: the statement instantiated on the empty store and
the concrete clinic input; exactly one user exists afterwards. -/
theorem c9_witness :
    ∃ s', adminCreateClinic emptyStore c4input = .ok s'
      ∧ s'.users.length = 1
      ∧ create_clinic_admin_user s' emptyStore.nextClinicId true = s' := by
  obtain ⟨s', _, h2, _, h4, h5⟩ :=
    c9_single_provisioning emptyStore c4input "a@x.com" "Jane" ["Doe"]
      rfl (by decide) (by decide) (by decide) (by decide)
      (by simp [emptyStore]) (by simp [emptyStore])
  exact ⟨s', h5, h2, h4⟩
